import Mathlib

/-!
Verification development for the digmusic real-time HRV classification
pipeline.  The definitions below are shallow embeddings of the Python
sources:

* `PNN50Calculator` and its operations embed `src/signal/pnn50.py`;
* `RollingMean`, `Status`, `FixedBaselineClassifier` embed
  `src/signal/state.py`;
* `DigMusicDB` cooldown/insert logic embeds `src/storage/db.py`;
* `MeasureSession` per-sample processing embeds `src/measure/session.py`.

Python floats are modelled as rationals (`ℚ`), Python ints as `ℤ`/`ℕ`,
`None` as `Option.none`.  Mutating methods are modelled as functions
returning the updated state.
-/

/-- `takeR n l` is the list of the last `n` elements of `l` (all of `l`
if `l` has fewer than `n` elements).  It models both Python's
`lst[-n:]` slicing and a `deque(maxlen := n)` after an append. -/
def takeR {α : Type} (n : ℕ) (l : List α) : List α :=
  l.drop (l.length - n)

/-- The status enumeration from `src/signal/state.py`. -/
inductive Status where
  | CHILL : Status
  | HYPE : Status
  | NEUTRAL : Status
deriving DecidableEq, Repr

/-- State of `PNN50Calculator` (`src/signal/pnn50.py`): the RR buffer
`_rr` and the cached `_last_pnn50`.  The constructor parameters
`window_beats` and `max_jump_ms` are passed explicitly to the
operations that use them. -/
structure PNN50Calculator where
  rr : List ℤ
  last_pnn50 : Option ℚ
deriving DecidableEq, Repr

/-- The freshly constructed calculator (`__init__`). -/
def pnn50Init : PNN50Calculator := ⟨[], none⟩

/-- `PNN50Calculator.reset`. -/
def PNN50Calculator.reset (_s : PNN50Calculator) : PNN50Calculator := ⟨[], none⟩

/-- `PNN50Calculator.add_rr` from `src/signal/pnn50.py` lines 35-60.
Returns the accepted flag together with the updated state. -/
def add_rr (window_beats max_jump_ms : ℕ) (s : PNN50Calculator) (rr_ms : ℤ) :
    Bool × PNN50Calculator :=
  if rr_ms < 200 ∨ 2000 < rr_ms then
    (false, s)
  else
    match s.rr.getLast? with
    | none => (true, { s with rr := [rr_ms] })
    | some prev =>
      if (max_jump_ms : ℤ) < |rr_ms - prev| then
        (true, { s with rr := [rr_ms] })
      else
        let rr2 := s.rr ++ [rr_ms]
        (true, { s with rr := if window_beats < rr2.length then takeR window_beats rr2 else rr2 })

/-- `PNN50Calculator.hr_bpm`. -/
def hr_bpm (s : PNN50Calculator) : Option ℚ :=
  match s.rr.getLast? with
  | none => none
  | some r => if r ≤ 0 then none else some (60000 / (r : ℚ))

/-- The list of absolute consecutive RR differences
(`[abs(rr[i] - rr[i-1]) for i in range(1, len(rr))]`). -/
def diffsOf (l : List ℤ) : List ℤ :=
  (l.zip l.tail).map (fun p => |p.2 - p.1|)

/-- The freshly computed pNN50 value of a buffer:
`max(0.0, min(100.0, 100.0 * cnt / len(diffs)))` where `cnt` counts
the differences exceeding 50 ms. -/
def pnn50Value (rr : List ℤ) : ℚ :=
  max 0 (min 100
    ((100 * (((diffsOf rr).filter (fun d => 50 < d)).length : ℚ)) /
      ((diffsOf rr).length : ℚ)))

/-- `PNN50Calculator.pnn50_percent` from `src/signal/pnn50.py` lines
70-85.  Note that when there are fewer than `min_diffs` differences
(but at least two samples) the *cached* `_last_pnn50` is returned, and
the cache is updated only when a fresh value is computed. -/
def pnn50_percent (min_diffs : ℕ) (s : PNN50Calculator) :
    Option ℚ × PNN50Calculator :=
  if s.rr.length < 2 then
    (none, s)
  else if (diffsOf s.rr).length < min_diffs then
    (s.last_pnn50, s)
  else
    (some (pnn50Value s.rr), { s with last_pnn50 := some (pnn50Value s.rr) })

/-- Folding a list of RR samples through `add_rr` starting from a fresh
calculator: the state produced by a history consisting only of
`add_rr` calls. -/
def addFold (window_beats max_jump_ms : ℕ) (rrs : List ℤ) : PNN50Calculator :=
  rrs.foldl (fun st r => (add_rr window_beats max_jump_ms st r).2) pnn50Init

/-- Reachable states of a `PNN50Calculator` instance constructed with
the given `window_beats` / `max_jump_ms`: any interleaving of
`add_rr`, `pnn50_percent` and `reset` calls starting from the fresh
state. -/
inductive PNN50Reachable (window_beats max_jump_ms : ℕ) : PNN50Calculator → Prop where
  | init : PNN50Reachable window_beats max_jump_ms pnn50Init
  | step_add (s : PNN50Calculator) (r : ℤ) :
      PNN50Reachable window_beats max_jump_ms s →
      PNN50Reachable window_beats max_jump_ms (add_rr window_beats max_jump_ms s r).2
  | step_pct (s : PNN50Calculator) (m : ℕ) :
      PNN50Reachable window_beats max_jump_ms s →
      PNN50Reachable window_beats max_jump_ms (pnn50_percent m s).2
  | step_reset (s : PNN50Calculator) :
      PNN50Reachable window_beats max_jump_ms s →
      PNN50Reachable window_beats max_jump_ms s.reset

/-- State of a `RollingMean` (`src/signal/state.py` lines 15-35): the
configured size and the deque contents (newest last). -/
structure RollingMean where
  size : ℕ
  buf : List ℚ
deriving DecidableEq, Repr

/-- `RollingMean.add`: append to a `deque(maxlen := size)` — the
buffer keeps the last `size` elements.  (The source's dynamic-resize
branch rebuilds the deque to the last `size` elements before
appending, which yields the same contents.) -/
def RollingMean.add (m : RollingMean) (x : ℚ) : RollingMean :=
  ⟨m.size, takeR m.size (m.buf ++ [x])⟩

/-- `RollingMean.mean`. -/
def RollingMean.mean (m : RollingMean) : Option ℚ :=
  if m.buf.isEmpty then none else some (m.buf.sum / m.buf.length)

/-- `RollingMean.is_ready`. -/
def RollingMean.is_ready (m : RollingMean) : Prop :=
  m.size ≤ m.buf.length

instance (m : RollingMean) : Decidable m.is_ready := by
  unfold RollingMean.is_ready; infer_instance

/-- The hysteresis state of `FixedBaselineClassifier`:
`_current_status`, `_transition_target`, `_transition_hits`. -/
structure StabState where
  cur : Status
  target : Status
  hits : ℕ
deriving DecidableEq, Repr

/-- The stabilizer state set by `_reset_runtime_state`. -/
def stabInit : StabState := ⟨.NEUTRAL, .NEUTRAL, 0⟩

/-- `FixedBaselineClassifier._stabilize_status`
(`src/signal/state.py` lines 142-161), returning the new hysteresis
state together with the emitted status. -/
def stabilize_status (status_switch_threshold : ℕ) (s : StabState) (candidate : Status) :
    StabState × Status :=
  if candidate = s.cur then
    (⟨s.cur, candidate, 0⟩, s.cur)
  else if candidate ≠ s.target then
    (⟨s.cur, candidate, 1⟩, s.cur)
  else if max 1 status_switch_threshold ≤ s.hits + 1 then
    (⟨candidate, candidate, 0⟩, candidate)
  else
    (⟨s.cur, s.target, s.hits + 1⟩, s.cur)

/-- Feeding a list of candidate statuses through the stabilizer,
collecting the emitted statuses. -/
def stabRun (status_switch_threshold : ℕ) :
    StabState → List Status → StabState × List Status
  | s, [] => (s, [])
  | s, c :: cs =>
    let (s1, out) := stabilize_status status_switch_threshold s c
    let (s2, outs) := stabRun status_switch_threshold s1 cs
    (s2, out :: outs)

/-- Configuration of a `FixedBaselineClassifier` (constructor
parameters of `src/signal/state.py` lines 38-61). -/
structure ClfConfig where
  smooth_size : ℕ
  hr_smooth_size : ℕ
  status_switch_threshold : ℕ
  chill_pnn50_ratio : ℚ
  chill_hr_ratio : ℚ
  hype_hr_ratio : ℚ
  hype_pnn50_ratio : ℚ
deriving DecidableEq, Repr

/-- Mutable state of a `FixedBaselineClassifier`. -/
structure FixedBaselineClassifier where
  smooth : RollingMean
  hr_smooth : RollingMean
  baseline_pnn50 : Option ℚ
  baseline_hr : Option ℚ
  stab : StabState
deriving DecidableEq, Repr

/-- The state after `__post_init__` / `_reset_runtime_state`. -/
def clfInit (cfg : ClfConfig) : FixedBaselineClassifier :=
  ⟨⟨cfg.smooth_size, []⟩, ⟨cfg.hr_smooth_size, []⟩, none, none, stabInit⟩

/-- `FixedBaselineClassifier.set_baseline`: fixes the baselines and
resets the runtime state. -/
def set_baseline (cfg : ClfConfig) (baseline_pnn50 baseline_hr : ℚ) :
    FixedBaselineClassifier :=
  ⟨⟨cfg.smooth_size, []⟩, ⟨cfg.hr_smooth_size, []⟩,
    some baseline_pnn50, some baseline_hr, stabInit⟩

/-- The rolling HR mean after an `update` call: updated only when an
HR value is present (`src/signal/state.py` lines 106-107). -/
def clfHrSmooth (c : FixedBaselineClassifier) (hr : Option ℚ) : RollingMean :=
  match hr with
  | some h => c.hr_smooth.add h
  | none => c.hr_smooth

/-- The raw per-sample candidate of `FixedBaselineClassifier.update`
(`src/signal/state.py` lines 126-137). -/
def clfCandidate (cfg : ClfConfig) (bp bh smv hrv : ℚ) : Status :=
  if bp * cfg.chill_pnn50_ratio ≤ smv ∧ hrv ≤ bh * cfg.chill_hr_ratio then
    Status.CHILL
  else if bh * cfg.hype_hr_ratio ≤ hrv ∧ smv ≤ bp * cfg.hype_pnn50_ratio then
    Status.HYPE
  else Status.NEUTRAL

/-- `FixedBaselineClassifier.update` (`src/signal/state.py` lines
91-140).  Returns the updated state and the
`(smoothed_pnn50, baseline_pnn50, status)` triple. -/
def FixedBaselineClassifier.update (cfg : ClfConfig) (c : FixedBaselineClassifier)
    (pnn50 : ℚ) (hr : Option ℚ) :
    FixedBaselineClassifier × (Option ℚ × Option ℚ × Status) :=
  match c.baseline_pnn50, c.baseline_hr with
  | some bp, some bh =>
    match (c.smooth.add pnn50).mean, (clfHrSmooth c hr).mean with
    | some smv, some hrv =>
      if (c.smooth.add pnn50).is_ready ∧ (clfHrSmooth c hr).is_ready then
        (⟨c.smooth.add pnn50, clfHrSmooth c hr, some bp, some bh,
           (stabilize_status cfg.status_switch_threshold c.stab
             (clfCandidate cfg bp bh smv hrv)).1⟩,
         (some smv, some bp,
          (stabilize_status cfg.status_switch_threshold c.stab
            (clfCandidate cfg bp bh smv hrv)).2))
      else
        (⟨c.smooth.add pnn50, clfHrSmooth c hr, some bp, some bh, c.stab⟩,
         (some smv, some bp, Status.NEUTRAL))
    | sm, _ =>
      (⟨c.smooth.add pnn50, clfHrSmooth c hr, some bp, some bh, c.stab⟩,
       (sm, some bp, Status.NEUTRAL))
  | _, _ =>
    (⟨c.smooth.add pnn50, clfHrSmooth c hr, c.baseline_pnn50, c.baseline_hr, c.stab⟩,
     ((c.smooth.add pnn50).mean, c.baseline_pnn50, Status.NEUTRAL))

/-- Running the classifier over a list of `(pnn50, hr)` samples,
collecting the emitted statuses. -/
def clfRun (cfg : ClfConfig) :
    FixedBaselineClassifier → List (ℚ × Option ℚ) →
    FixedBaselineClassifier × List Status
  | c, [] => (c, [])
  | c, (p, h) :: rest =>
    let (c1, res) := c.update cfg p h
    let (c2, outs) := clfRun cfg c1 rest
    (c2, res.2.2 :: outs)

/-- The per-sample candidate status of `FixedBaselineClassifier.update`
as a pure function of the sample prefix processed so far: the rolling
buffers hold the last `smooth_size` pNN50 values and the last
`hr_smooth_size` present HR values; the candidate is defined (`some`)
exactly when both buffers are non-empty and full. -/
def candPre (cfg : ClfConfig) (bp bh : ℚ) (pref : List (ℚ × Option ℚ)) : Option Status :=
  if (takeR cfg.smooth_size (pref.map Prod.fst)).isEmpty
      ∨ (takeR cfg.smooth_size (pref.map Prod.fst)).length < cfg.smooth_size
      ∨ (takeR cfg.hr_smooth_size (pref.filterMap Prod.snd)).isEmpty
      ∨ (takeR cfg.hr_smooth_size (pref.filterMap Prod.snd)).length < cfg.hr_smooth_size then
    none
  else
    some (clfCandidate cfg bp bh
      ((takeR cfg.smooth_size (pref.map Prod.fst)).sum
        / ((takeR cfg.smooth_size (pref.map Prod.fst)).length : ℚ))
      ((takeR cfg.hr_smooth_size (pref.filterMap Prod.snd)).sum
        / ((takeR cfg.hr_smooth_size (pref.filterMap Prod.snd)).length : ℚ)))

/-- One stabilizer step driven by an optional candidate: `none` models
an `update` call that returns NEUTRAL before reaching the stabilizer
(baseline missing or rolling means not ready). -/
def optStep (status_switch_threshold : ℕ) (s : StabState) :
    Option Status → StabState × Status
  | none => (s, Status.NEUTRAL)
  | some c => stabilize_status status_switch_threshold s c

/-- Folding `optStep` over a list of optional candidates. -/
def optRun (status_switch_threshold : ℕ) :
    StabState → List (Option Status) → StabState × List Status
  | s, [] => (s, [])
  | s, c :: cs =>
    let (s1, out) := optStep status_switch_threshold s c
    let (s2, outs) := optRun status_switch_threshold s1 cs
    (s2, out :: outs)

/-- Modelled from the spec: the delta-strategy `StateClassifier`
(spec §4.4) is referenced by `src/main_event_logger.py` but its
definition is absent from `src/signal/state.py`; only the ratio-based
`FixedBaselineClassifier` is present.  Per the spec, the classifier
holds a fixed baseline, smooths the metric with a rolling mean
(forced NEUTRAL until the mean is ready), classifies CHILL when the
smoothed value is at least `baseline + chill_delta`, HYPE when at most
`baseline - hype_delta`, else NEUTRAL, and emits through the same
hysteresis stabilizer.  The rolling mean and stabilizer are the
embeddings of `src/signal/state.py`. -/
structure StateClassifier where
  smooth : RollingMean
  stab : StabState
deriving DecidableEq, Repr

/-- Modelled from the spec: fresh delta-strategy classifier state. -/
def deltaInit (smooth_size : ℕ) : StateClassifier :=
  ⟨⟨smooth_size, []⟩, stabInit⟩

/-- Modelled from the spec: the delta-strategy per-sample candidate
(CHILL at or above `baseline + chill_delta`, HYPE at or below
`baseline - hype_delta`, else NEUTRAL). -/
def deltaCandidate (baseline chill_delta hype_delta sm : ℚ) : Status :=
  if baseline + chill_delta ≤ sm then Status.CHILL
  else if sm ≤ baseline - hype_delta then Status.HYPE
  else Status.NEUTRAL

/-- Modelled from the spec: one update of the delta-strategy
classifier (see `StateClassifier`). -/
def StateClassifier.update (status_switch_threshold : ℕ)
    (baseline chill_delta hype_delta : ℚ) (c : StateClassifier) (x : ℚ) :
    StateClassifier × Status :=
  match (c.smooth.add x).mean with
  | none => (⟨c.smooth.add x, c.stab⟩, Status.NEUTRAL)
  | some sm =>
    if (c.smooth.add x).is_ready then
      (⟨c.smooth.add x,
        (stabilize_status status_switch_threshold c.stab
          (deltaCandidate baseline chill_delta hype_delta sm)).1⟩,
       (stabilize_status status_switch_threshold c.stab
         (deltaCandidate baseline chill_delta hype_delta sm)).2)
    else
      (⟨c.smooth.add x, c.stab⟩, Status.NEUTRAL)

/-- Running the delta-strategy classifier over a metric stream. -/
def deltaRun (status_switch_threshold : ℕ) (baseline chill_delta hype_delta : ℚ) :
    StateClassifier → List ℚ → StateClassifier × List Status
  | c, [] => (c, [])
  | c, x :: xs =>
    let (c1, out) := c.update status_switch_threshold baseline chill_delta hype_delta x
    let (c2, outs) := deltaRun status_switch_threshold baseline chill_delta hype_delta c1 xs
    (c2, out :: outs)

/-- An `events` row (`src/storage/db.py` `EventRow`), timestamps as
rationals. -/
structure EventRow where
  ts : ℚ
  status : Status
  pnn50 : ℚ
  artist_name : String
  track_name : String
deriving DecidableEq, Repr

/-- The persistent store (`src/storage/db.py`): the `events` and
`baseline` tables, rows in insertion (id) order. -/
structure DigMusicDB where
  events : List EventRow
  baselines : List ℚ
deriving DecidableEq, Repr

/-- `DigMusicDB.insert_event`. -/
def insert_event (db : DigMusicDB) (e : EventRow) : DigMusicDB :=
  { db with events := db.events ++ [e] }

/-- `DigMusicDB.save_baseline`. -/
def save_baseline (db : DigMusicDB) (v : ℚ) : DigMusicDB :=
  { db with baselines := db.baselines ++ [v] }

/-- `DigMusicDB.should_save_event_cooldown` (`src/storage/db.py` lines
86-95): true iff there is no prior event or the most recent event is
at least `cooldown_seconds` old. -/
def should_save_event_cooldown (db : DigMusicDB) (ts : ℚ) (cooldown_seconds : ℚ) : Prop :=
  match db.events.getLast? with
  | none => True
  | some e => cooldown_seconds ≤ ts - e.ts

instance (db : DigMusicDB) (ts cd : ℚ) :
    Decidable (should_save_event_cooldown db ts cd) := by
  unfold should_save_event_cooldown
  cases db.events.getLast? <;> infer_instance

/-- Helper for `split_track`: splits a character list at the first
occurrence of the separator " - ", like Python's
`text.split(" - ", 1)`. -/
def splitSepAux : List Char → Option (List Char × List Char)
  | [] => none
  | c :: rest =>
    if (c :: rest).take 3 = [' ', '-', ' '] then
      some ([], rest.drop 2)
    else
      match splitSepAux rest with
      | some (a, b) => some (c :: a, b)
      | none => none

/-- The track-text split of `src/measure/session.py` lines 217-220:
`artist, track = text.split(" - ", 1)` when the separator occurs,
otherwise `("Unknown", text)`. -/
def split_track (text : String) : String × String :=
  match splitSepAux text.toList with
  | some (a, b) => (String.mk a, String.mk b)
  | none => ("Unknown", text)

/-- The pending-episode state of `MeasureSession`
(`_pending_status`, `_pending_since`, `_pending_track`,
`_pending_saved`). -/
structure Pending where
  pending_status : Option Status
  pending_since : Option ℚ
  pending_track : Option String
  pending_saved : Bool
deriving DecidableEq, Repr

/-- `MeasureSession._reset_pending`. -/
def pendingInit : Pending := ⟨none, none, none, false⟩

/-- Effects the session performs on the persistence store. -/
inductive SessionEff where
  | saveBaseline (v : ℚ) : SessionEff
  | insertEvent (e : EventRow) : SessionEff
deriving DecidableEq, Repr

/-- `MeasureSession._update_pending_and_maybe_save`
(`src/measure/session.py` lines 162-237): the episode debouncer.
Takes the session's cooldown, current `track_text`, the wall clock,
the emitted status and the value to save; returns the new pending
state, the new store state, and the effect list (one `insertEvent`
when a save happens). -/
def update_pending_and_maybe_save (cooldown_seconds : ℚ) (track_text : String)
    (now_epoch : ℚ) (status : Status) (value_to_save : ℚ)
    (p : Pending) (db : DigMusicDB) : Pending × DigMusicDB × List SessionEff :=
  if ¬(status = Status.CHILL ∨ status = Status.HYPE) then
    (pendingInit, db, [])
  else if track_text = "—" then
    (pendingInit, db, [])
  else if p.pending_status ≠ some status ∨ p.pending_track ≠ some track_text ∨
      p.pending_since = none then
    (⟨some status, some now_epoch, some track_text, false⟩, db, [])
  else if p.pending_saved then
    (p, db, [])
  else if now_epoch - p.pending_since.getD 0 < 15 then
    (p, db, [])
  else if ¬ should_save_event_cooldown db now_epoch cooldown_seconds then
    (p, db, [])
  else
    ({ p with pending_saved := true },
     insert_event db ⟨now_epoch, status, value_to_save,
       (split_track track_text).1, (split_track track_text).2⟩,
     [.insertEvent ⟨now_epoch, status, value_to_save,
       (split_track track_text).1, (split_track track_text).2⟩])

/-- Folding `update_pending_and_maybe_save` over a run of samples with
a constant status and track, accumulating effects. -/
def pendRun (cooldown_seconds : ℚ) (track_text : String) (status : Status) :
    Pending × DigMusicDB → List (ℚ × ℚ) → (Pending × DigMusicDB) × List SessionEff
  | pd, [] => (pd, [])
  | (p, db), (now, v) :: rest =>
    let r := update_pending_and_maybe_save cooldown_seconds track_text now status v p db
    let (pd2, effs2) := pendRun cooldown_seconds track_text status (r.1, r.2.1) rest
    (pd2, r.2.2 ++ effs2)

/-- The fatal calibration errors of `MeasureSession.run`
(`src/measure/session.py` lines 325-337). -/
inductive CalibrationError where
  | noPnn50Samples : CalibrationError
  | noHrSamples : CalibrationError
deriving DecidableEq, Repr

/-- One sample delivered to the session loop: the wall clock at the
iteration, the RR value, and the track text `_poll_track` would leave
in `track_text` (the context provider is external). -/
structure SessionInput where
  now : ℚ
  rr_ms : ℤ
  track : String
deriving DecidableEq, Repr

/-- The classifier configuration hard-coded in `MeasureSession.__init__`
(`src/measure/session.py` lines 78-88). -/
def sessionClfConfig : ClfConfig :=
  ⟨5, 5, 4, 11/10, 27/25, 11/10, 9/10⟩

/-- The state of a `MeasureSession`. -/
structure MeasureSession where
  calc_ : PNN50Calculator
  clf : FixedBaselineClassifier
  rest_end_epoch : Option ℚ
  rest_p_values : List ℚ
  rest_hr_values : List ℚ
  baseline_fixed : Option ℚ
  pending : Pending
  db : DigMusicDB
  track_text : String
deriving DecidableEq, Repr

/-- The session state at the start of `run` (REST phase begins;
`rest_end_epoch` is the configured rest deadline). -/
def sessionInit (db : DigMusicDB) (rest_end : ℚ) : MeasureSession :=
  ⟨pnn50Init, clfInit sessionClfConfig, some rest_end, [], [], none, pendingInit, db, "—"⟩

/-- One iteration of the `MeasureSession.run` loop
(`src/measure/session.py` lines 255-425) for an arriving sample:
poll the track, validate/buffer the RR value, compute HR and pNN50,
then branch on the phase (REST accumulation; REST end with fatal
calibration errors or the one-time baseline fix; RUN with
classification and the episode debouncer).  Returns the new state,
the persistence effects, and a fatal error if one was raised. -/
def session_step (cooldown_seconds : ℚ) (s : MeasureSession) (i : SessionInput) :
    MeasureSession × List SessionEff × Option CalibrationError :=
  let s := { s with track_text := i.track }
  let a := add_rr 30 600 s.calc_ i.rr_ms
  if ¬ a.1 then
    ({ s with calc_ := a.2 }, [], none)
  else
    let hr := hr_bpm a.2
    let pc := pnn50_percent 10 a.2
    let p := pc.1
    let s := { s with calc_ := pc.2 }
    match s.rest_end_epoch with
    | some re =>
      if i.now < re then
        ({ s with rest_p_values := s.rest_p_values ++ p.toList,
                  rest_hr_values := s.rest_hr_values ++ hr.toList,
                  pending := pendingInit }, [], none)
      else
        let s := { s with rest_end_epoch := none }
        if s.rest_p_values = [] then
          (s, [], some .noPnn50Samples)
        else if s.rest_hr_values = [] then
          (s, [], some .noHrSamples)
        else
          let bp := s.rest_p_values.sum / s.rest_p_values.length
          let bh := s.rest_hr_values.sum / s.rest_hr_values.length
          ({ s with clf := set_baseline sessionClfConfig bp bh,
                    baseline_fixed := some bp,
                    db := save_baseline s.db bp,
                    pending := pendingInit }, [.saveBaseline bp], none)
    | none =>
      match p with
      | none => ({ s with pending := pendingInit }, [], none)
      | some pv =>
        let u := s.clf.update sessionClfConfig pv hr
        let status := u.2.2.2
        let value_for_save := u.2.1.getD pv
        let r := update_pending_and_maybe_save cooldown_seconds s.track_text i.now
          status value_for_save s.pending s.db
        ({ s with clf := u.1, pending := r.1, db := r.2.1 }, r.2.2, none)

/-- Driving the session over a list of samples, stopping at the first
fatal error, accumulating persistence effects. -/
def sessionRun (cooldown_seconds : ℚ) :
    MeasureSession → List SessionInput →
    MeasureSession × List SessionEff × Option CalibrationError
  | s, [] => (s, [], none)
  | s, i :: rest =>
    let r := session_step cooldown_seconds s i
    match r.2.2 with
    | some e => (r.1, r.2.1, some e)
    | none =>
      let r2 := sessionRun cooldown_seconds r.1 rest
      (r2.1, r.2.1 ++ r2.2.1, r2.2.2)

/-- The number of `insertEvent` effects in an effect list. -/
def countInserts (effs : List SessionEff) : ℕ :=
  (effs.filter fun e => match e with
    | .insertEvent _ => true
    | .saveBaseline _ => false).length

/-- The number of `saveBaseline` effects in an effect list. -/
def countSaves (effs : List SessionEff) : ℕ :=
  (effs.filter fun e => match e with
    | .insertEvent _ => false
    | .saveBaseline _ => true).length

/-- The stabilizer state after feeding `k` copies of a candidate
`S ≠ b` from the clean state `⟨b, b, 0⟩`: mid-streak the counter holds
`k`, and the status has flipped once `k` reaches `max 2 t`. -/
def repState (t : ℕ) (b S : Status) (k : ℕ) : StabState :=
  if max 2 t ≤ k then ⟨S, S, 0⟩
  else if k = 0 then ⟨b, b, 0⟩
  else ⟨b, S, k⟩

/-- The delta-strategy classifier state after `m` samples of a constant
stream `x`: the rolling buffer holds `min m ssize` copies of `x` and
the stabilizer is `m + 1 - ssize` steps into a CHILL streak. -/
def deltaState (ssize t : ℕ) (x : ℚ) (m : ℕ) : StateClassifier :=
  ⟨⟨ssize, List.replicate (min m ssize) x⟩,
   repState t Status.NEUTRAL Status.CHILL (m + 1 - ssize)⟩

/-- The session invariant behind C10: the cached pNN50 and every value
in the classifier's rolling pNN50 buffer lie within [0, 100]. -/
def sessionInv (s : MeasureSession) : Prop :=
  (∀ q, s.calc_.last_pnn50 = some q → 0 ≤ q ∧ q ≤ 100) ∧
  (∀ x ∈ s.clf.smooth.buf, 0 ≤ x ∧ x ≤ 100)

/-! ## Basic lemmas about `takeR` -/

theorem takeR_length {α : Type} (n : ℕ) (l : List α) :
    (takeR n l).length = min n l.length := by
  simp [takeR]
  omega

theorem takeR_subset {α : Type} (n : ℕ) (l : List α) :
    ∀ a, a ∈ takeR n l → a ∈ l := by
  intro a h
  exact List.drop_subset _ l h

theorem takeR_all {α : Type} (n : ℕ) (l : List α) (h : l.length ≤ n) :
    takeR n l = l := by
  unfold takeR
  have : l.length - n = 0 := by omega
  simp [this]

theorem takeR_append_right {α : Type} (n : ℕ) (l1 l2 : List α)
    (h : n ≤ l2.length) : takeR n (l1 ++ l2) = takeR n l2 := by
  unfold takeR
  have h1 : (l1 ++ l2).length - n = l1.length + (l2.length - n) := by
    simp; omega
  rw [h1, List.drop_append]

theorem takeR_takeR {α : Type} (m n : ℕ) (l : List α) (h : m ≤ n) :
    takeR m (takeR n l) = takeR m l := by
  unfold takeR
  rw [List.drop_drop]
  congr 1
  simp
  omega

theorem takeR_append_takeR {α : Type} (n : ℕ) (l1 l2 : List α) :
    takeR n (takeR n l1 ++ l2) = takeR n (l1 ++ l2) := by
  rcases le_or_lt n l2.length with h | h
  · rw [takeR_append_right n _ l2 h, takeR_append_right n l1 l2 h]
  · unfold takeR
    have e1 : (List.drop (l1.length - n) l1 ++ l2).length - n ≤
        (List.drop (l1.length - n) l1).length := by
      simp; omega
    have e2 : (l1 ++ l2).length - n ≤ l1.length := by
      simp; omega
    rw [List.drop_append_of_le_length e1, List.drop_append_of_le_length e2]
    congr 1
    rw [List.drop_drop]
    congr 1
    simp
    omega

/-! ## Lemmas about the pNN50 calculator -/

theorem add_rr_last_pnn50 (w j : ℕ) (s : PNN50Calculator) (r : ℤ) :
    ((add_rr w j s r).2).last_pnn50 = s.last_pnn50 := by
  unfold add_rr
  split
  · rfl
  · cases s.rr.getLast? with
    | none => rfl
    | some prev =>
      simp only
      split <;> rfl

theorem addFoldAux_last_pnn50 (w j : ℕ) (rrs : List ℤ) :
    ∀ s : PNN50Calculator,
      (rrs.foldl (fun st r => (add_rr w j st r).2) s).last_pnn50 = s.last_pnn50 := by
  induction rrs with
  | nil => intro s; rfl
  | cons r rest ih =>
    intro s
    rw [List.foldl_cons, ih, add_rr_last_pnn50]

theorem addFold_last_pnn50 (w j : ℕ) (rrs : List ℤ) :
    (addFold w j rrs).last_pnn50 = none := by
  unfold addFold
  rw [addFoldAux_last_pnn50]
  rfl

theorem pnn50Reachable_foldl (w j : ℕ) (rrs : List ℤ) :
    ∀ s : PNN50Calculator, PNN50Reachable w j s →
      PNN50Reachable w j (rrs.foldl (fun st r => (add_rr w j st r).2) s) := by
  induction rrs with
  | nil => intro s h; exact h
  | cons r rest ih =>
    intro s h
    rw [List.foldl_cons]
    exact ih _ (PNN50Reachable.step_add s r h)

theorem pnn50Reachable_addFold (w j : ℕ) (rrs : List ℤ) :
    PNN50Reachable w j (addFold w j rrs) :=
  pnn50Reachable_foldl w j rrs pnn50Init PNN50Reachable.init

theorem pnn50_clamp_bounds (x : ℚ) :
    0 ≤ max 0 (min 100 x) ∧ max 0 (min 100 x) ≤ 100 := by
  constructor
  · exact le_max_left 0 _
  · exact max_le (by norm_num) (min_le_left 100 x)

theorem pnn50Reachable_last_bound (w j : ℕ) (s : PNN50Calculator)
    (h : PNN50Reachable w j s) :
    ∀ q, s.last_pnn50 = some q → 0 ≤ q ∧ q ≤ 100 := by
  induction h with
  | init => intro q hq; simp [pnn50Init] at hq
  | step_add s r _ ih =>
    intro q hq
    rw [add_rr_last_pnn50] at hq
    exact ih q hq
  | step_pct s m _ ih =>
    intro q hq
    unfold pnn50_percent at hq
    split at hq
    · exact ih q hq
    · split at hq
      · exact ih q hq
      · simp only [Option.some_inj] at hq
        rw [← hq]
        unfold pnn50Value
        exact pnn50_clamp_bounds _
  | step_reset s _ _ =>
    intro q hq
    simp [PNN50Calculator.reset] at hq

/-! ## C1: result of `pnn50_percent` -/

/-- C1 (amended): for every reachable `PNN50Calculator` state, the
result of `pnn50_percent(min_diffs)` is within [0, 100] whenever it is
not `None`; when at least `min_diffs` differences exist (and the buffer
has at least two samples) the result is the freshly computed clamped
percentage; and the result is `None` exactly when the buffer holds
fewer than two samples, or fewer than `min_diffs` differences exist
while the cached last pNN50 is `None`.  (The original claim — `None`
exactly when fewer than `min_diffs` differences exist — fails because
with 2..`min_diffs` samples the cached previous value is returned.) -/
theorem c1_pnn50_result (w j m : ℕ) (s : PNN50Calculator)
    (hreach : PNN50Reachable w j s) :
    (∀ v, (pnn50_percent m s).1 = some v → 0 ≤ v ∧ v ≤ 100) ∧
    (2 ≤ s.rr.length → m ≤ (diffsOf s.rr).length →
      (pnn50_percent m s).1 = some (pnn50Value s.rr)) ∧
    ((pnn50_percent m s).1 = none ↔
      s.rr.length < 2 ∨ ((diffsOf s.rr).length < m ∧ s.last_pnn50 = none)) := by
  refine ⟨?_, ?_, ?_⟩
  · intro v hv
    unfold pnn50_percent at hv
    split at hv
    · simp at hv
    · split at hv
      · exact pnn50Reachable_last_bound w j s hreach v hv
      · simp only [Option.some_inj] at hv
        rw [← hv]
        unfold pnn50Value
        exact pnn50_clamp_bounds _
  · intro h2 hm
    unfold pnn50_percent
    rw [if_neg (by omega), if_neg (by omega)]
  · unfold pnn50_percent
    split_ifs with h1 h2
    · simp [h1]
    · simp [h1, h2]
    · simp [h1, h2]

/-- C1 counterexample: a reachable state produced by computing a pNN50
value (caching 0), suffering a large-jump reset and receiving one more
sample has a buffer with exactly one consecutive difference, yet
`pnn50_percent` with `min_diffs = 2` returns the stale `some 0`
instead of `None`. -/
theorem c1_counterexample :
    (pnn50_percent 2
      ([1200, 1210].foldl (fun st r => (add_rr 30 250 st r).2)
        (pnn50_percent 1 (addFold 30 250 [800, 810])).2)).1 = some 0 ∧
    (diffsOf ([1200, 1210].foldl (fun st r => (add_rr 30 250 st r).2)
        (pnn50_percent 1 (addFold 30 250 [800, 810])).2).rr).length = 1 := by
  norm_num [addFold, pnn50Init, add_rr, takeR, List.foldl, pnn50_percent,
    pnn50Value, diffsOf]

/-- Witness for C1: on the reachable state with buffer
`[800, 900, 800]` and `min_diffs = 2`, the fresh value `100` is
returned. -/
theorem c1_witness :
    (pnn50_percent 2 (addFold 30 250 [800, 900, 800])).1 = some 100 := by
  have h := (c1_pnn50_result 30 250 2 (addFold 30 250 [800, 900, 800])
    (pnn50Reachable_addFold 30 250 [800, 900, 800])).2.1
  have hs : addFold 30 250 [800, 900, 800] = ⟨[800, 900, 800], none⟩ := by
    norm_num [addFold, pnn50Init, add_rr, takeR, List.foldl]
  rw [hs] at h ⊢
  rw [h (by norm_num) (by norm_num [diffsOf])]
  norm_num [pnn50Value, diffsOf]

/-! ## C2: purity of `pnn50_percent` -/

/-- C2 (amended): for states produced solely by `add_rr` calls from a
fresh calculator the cached value is `None`, so `pnn50_percent` is a
pure function of the buffer contents there; moreover a call leaves the
buffer unchanged and an immediately repeated call returns the same
result.  (In general the result also depends on the cached
`_last_pnn50`, which large-jump resets do not clear — see the
counterexample.) -/
theorem c2_pure_function :
    (∀ (w1 j1 w2 j2 m : ℕ) (h1 h2 : List ℤ),
      (addFold w1 j1 h1).rr = (addFold w2 j2 h2).rr →
      (pnn50_percent m (addFold w1 j1 h1)).1
        = (pnn50_percent m (addFold w2 j2 h2)).1) ∧
    (∀ (m : ℕ) (s : PNN50Calculator),
      ((pnn50_percent m s).2).rr = s.rr ∧
      (pnn50_percent m ((pnn50_percent m s).2)).1 = (pnn50_percent m s).1) := by
  constructor
  · intro w1 j1 w2 j2 m h1 h2 heq
    have l1 := addFold_last_pnn50 w1 j1 h1
    have l2 := addFold_last_pnn50 w2 j2 h2
    have hst : addFold w1 j1 h1 = addFold w2 j2 h2 := by
      rcases hA : addFold w1 j1 h1 with ⟨rr1, lp1⟩
      rcases hB : addFold w2 j2 h2 with ⟨rr2, lp2⟩
      rw [hA] at heq l1
      rw [hB] at heq l2
      simp only at heq l1 l2
      simp [heq, l1, l2]
    rw [hst]
  · intro m s
    by_cases hLen : s.rr.length < 2
    · have hr : pnn50_percent m s = (none, s) := by
        unfold pnn50_percent; rw [if_pos hLen]
      simp [hr]
    · by_cases hM : (diffsOf s.rr).length < m
      · have hr : pnn50_percent m s = (s.last_pnn50, s) := by
          unfold pnn50_percent; rw [if_neg hLen, if_pos hM]
        simp [hr]
      · have hr : pnn50_percent m s
            = (some (pnn50Value s.rr),
               { s with last_pnn50 := some (pnn50Value s.rr) }) := by
          unfold pnn50_percent; rw [if_neg hLen, if_neg hM]
        constructor
        · rw [hr]
        · rw [hr]
          simp [pnn50_percent, hLen, hM]

/-- C2 counterexample: two call histories leaving exactly the same
buffer `[1500, 1490]` — one of which computed a pNN50 of 100 before a
large-jump reset — give different `pnn50_percent` results
(`some 100` vs `None`), so the function is not a pure function of the
buffer state. -/
theorem c2_counterexample :
    ([1500, 1490].foldl (fun st r => (add_rr 30 250 st r).2)
        (pnn50_percent 1 (addFold 30 250 [600, 700])).2).rr
      = (addFold 30 250 [1500, 1490]).rr ∧
    (pnn50_percent 2 ([1500, 1490].foldl (fun st r => (add_rr 30 250 st r).2)
        (pnn50_percent 1 (addFold 30 250 [600, 700])).2)).1 = some 100 ∧
    (pnn50_percent 2 (addFold 30 250 [1500, 1490])).1 = none := by
  norm_num [addFold, pnn50Init, add_rr, takeR, List.foldl, pnn50_percent,
    pnn50Value, diffsOf]

/-- Witness for C2: two add-only histories with equal buffers agree,
and a repeated call returns the identical value. -/
theorem c2_witness :
    (pnn50_percent 10 (addFold 30 250 [800, 810])).1
      = (pnn50_percent 10 (addFold 20 100 [800, 810])).1 ∧
    (pnn50_percent 1 ((pnn50_percent 1 (addFold 30 250 [600, 700])).2)).1
      = (pnn50_percent 1 (addFold 30 250 [600, 700])).1 := by
  constructor
  · exact c2_pure_function.1 30 250 20 100 10 [800, 810] [800, 810]
      (by norm_num [addFold, pnn50Init, add_rr, takeR, List.foldl])
  · exact (c2_pure_function.2 1 _).2

/-! ## C3: large-jump reset of `add_rr` -/

/-- C3: a range-valid RR sample that differs from the last buffered
value by more than `max_jump_ms` is accepted and leaves the buffer
containing exactly that sample; in particular, feeding
`[800, 805, 810, 900, 790]` with `max_jump_ms = 60` gives buffer
`[900]` after the fourth sample and `[790]` after the fifth. -/
theorem c3_jump_reset :
    (∀ (w j : ℕ) (s : PNN50Calculator) (rr prev : ℤ),
      200 ≤ rr → rr ≤ 2000 → s.rr.getLast? = some prev →
      (j : ℤ) < |rr - prev| →
      add_rr w j s rr = (true, { s with rr := [rr] })) ∧
    (addFold 30 60 [800, 805, 810, 900]).rr = [900] ∧
    (addFold 30 60 [800, 805, 810, 900, 790]).rr = [790] := by
  refine ⟨?_, ?_, ?_⟩
  · intro w j s rr prev ha hb hlast hjump
    unfold add_rr
    rw [if_neg (by omega), hlast]
    simp only
    rw [if_pos hjump]
  · norm_num [addFold, pnn50Init, add_rr, takeR, List.foldl]
  · norm_num [addFold, pnn50Init, add_rr, takeR, List.foldl]

/-- Witness for C3: with `max_jump_ms = 60` and buffer `[800]`, the
sample 900 is accepted and the buffer becomes `[900]`. -/
theorem c3_witness :
    add_rr 30 60 ⟨[800], none⟩ 900 = (true, ⟨[900], none⟩) := by
  simpa using c3_jump_reset.1 30 60 ⟨[800], none⟩ 900 800
    (by norm_num) (by norm_num) (by rfl) (by norm_num)

/-! ## C4: the hysteresis stabilizer -/

theorem repStep (t : ℕ) (b S : Status) (hne : S ≠ b) (k : ℕ) :
    stabilize_status t (repState t b S k) S
      = (repState t b S (k + 1), if max 2 t ≤ k + 1 then S else b) := by
  by_cases hk : max 2 t ≤ k
  · have h1 : repState t b S k = ⟨S, S, 0⟩ := by unfold repState; rw [if_pos hk]
    have h2 : repState t b S (k + 1) = ⟨S, S, 0⟩ := by
      unfold repState; rw [if_pos (by omega)]
    rw [h1, h2, if_pos (show max 2 t ≤ k + 1 by omega)]
    unfold stabilize_status
    simp
  · by_cases hk0 : k = 0
    · subst hk0
      have h1 : repState t b S 0 = ⟨b, b, 0⟩ := by
        unfold repState
        rw [if_neg (by simp only [max_le_iff]; omega), if_pos rfl]
      have h2 : repState t b S 1 = ⟨b, S, 1⟩ := by
        unfold repState
        rw [if_neg (by simp only [max_le_iff]; omega), if_neg (by omega)]
      rw [h1, h2, if_neg (by simp only [max_le_iff]; omega)]
      unfold stabilize_status
      simp [hne]
    · have h1 : repState t b S k = ⟨b, S, k⟩ := by
        unfold repState; rw [if_neg hk, if_neg hk0]
      rw [h1]
      by_cases hf : max 2 t ≤ k + 1
      · have h2 : repState t b S (k + 1) = ⟨S, S, 0⟩ := by
          unfold repState; rw [if_pos hf]
        rw [h2, if_pos hf]
        unfold stabilize_status
        have hth : max 1 t ≤ k + 1 := by
          simp only [max_le_iff] at hf ⊢; omega
        simp [hne, hth]
      · have h2 : repState t b S (k + 1) = ⟨b, S, k + 1⟩ := by
          unfold repState; rw [if_neg hf, if_neg (by omega)]
        rw [h2, if_neg hf]
        unfold stabilize_status
        have hth : ¬ max 1 t ≤ k + 1 := by
          simp only [max_le_iff] at hk hf ⊢; omega
        simp [hne, hth]

theorem stabRun_append (t : ℕ) (s : StabState) (l1 l2 : List Status) :
    stabRun t s (l1 ++ l2)
      = ((stabRun t (stabRun t s l1).1 l2).1,
         (stabRun t s l1).2 ++ (stabRun t (stabRun t s l1).1 l2).2) := by
  induction l1 generalizing s with
  | nil => simp [stabRun]
  | cons c cs ih => simp [stabRun, ih]

theorem stabRun_replicate (t : ℕ) (b S : Status) (hne : S ≠ b) (k : ℕ) :
    (stabRun t ⟨b, b, 0⟩ (List.replicate k S)).1 = repState t b S k ∧
    (stabRun t ⟨b, b, 0⟩ (List.replicate k S)).2
      = (List.range k).map (fun i => if max 2 t ≤ i + 1 then S else b) := by
  induction k with
  | zero =>
    constructor
    · simp only [List.replicate, stabRun, repState]
      rw [if_neg (by simp only [max_le_iff]; omega)]
      simp
    · simp [stabRun]
  | succ k ih =>
    rw [List.replicate_succ', stabRun_append, ih.1, ih.2]
    have hs := repStep t b S hne k
    constructor
    · simp [stabRun, hs]
    · simp [stabRun, hs, List.range_succ]

/-- C4 (amended): a candidate equal to the currently emitted status
resets the pending counter; a candidate differing from both the
current status and the pending target restarts the streak counter at
1; and feeding `k` consecutive copies of a candidate `S` different
from the current status flips the emitted status exactly at the
`max 2 t`-th copy (every earlier evaluation returns the previous
status).  The original claim — a flip after exactly `t` consecutive
evaluations for every `t ≥ 1` — fails at `t = 1`, where the
candidate-change branch returns without a threshold check and the flip
needs 2 consecutive candidates. -/
theorem c4_stabilizer :
    (∀ (t : ℕ) (s : StabState) (c : Status), c = s.cur →
      stabilize_status t s c = (⟨s.cur, c, 0⟩, s.cur)) ∧
    (∀ (t : ℕ) (s : StabState) (c : Status), c ≠ s.cur → c ≠ s.target →
      stabilize_status t s c = (⟨s.cur, c, 1⟩, s.cur)) ∧
    (∀ (t k : ℕ) (b S : Status), S ≠ b →
      (stabRun t ⟨b, b, 0⟩ (List.replicate k S)).2
        = (List.range k).map (fun i => if max 2 t ≤ i + 1 then S else b)) := by
  refine ⟨?_, ?_, ?_⟩
  · intro t s c h
    unfold stabilize_status
    rw [if_pos h]
  · intro t s c h1 h2
    unfold stabilize_status
    rw [if_neg h1, if_pos h2]
  · intro t k b S hne
    exact (stabRun_replicate t b S hne k).2

/-- C4 counterexample: with `status_switch_threshold = 1`, one
consecutive CHILL candidate (i.e. `t = 1` consecutive evaluations)
does not flip the emitted status — the evaluation still returns
NEUTRAL. -/
theorem c4_counterexample :
    (stabRun 1 ⟨Status.NEUTRAL, Status.NEUTRAL, 0⟩ [Status.CHILL]).2
      = [Status.NEUTRAL] ∧ Status.NEUTRAL ≠ Status.CHILL := by
  constructor
  · decide
  · decide

/-- Witness for C4: with threshold 3, a same-as-current candidate
resets the counter, a mid-streak candidate change restarts it at 1,
and four consecutive CHILL candidates emit
NEUTRAL, NEUTRAL, CHILL, CHILL (flip exactly at the third). -/
theorem c4_witness :
    stabilize_status 3 ⟨Status.NEUTRAL, Status.NEUTRAL, 0⟩ Status.NEUTRAL
      = (⟨Status.NEUTRAL, Status.NEUTRAL, 0⟩, Status.NEUTRAL) ∧
    stabilize_status 3 ⟨Status.NEUTRAL, Status.CHILL, 1⟩ Status.HYPE
      = (⟨Status.NEUTRAL, Status.HYPE, 1⟩, Status.NEUTRAL) ∧
    (stabRun 3 ⟨Status.NEUTRAL, Status.NEUTRAL, 0⟩ (List.replicate 4 Status.CHILL)).2
      = [Status.NEUTRAL, Status.NEUTRAL, Status.CHILL, Status.CHILL] := by
  refine ⟨c4_stabilizer.1 3 _ _ rfl,
          c4_stabilizer.2.1 3 _ _ (by decide) (by decide), ?_⟩
  rw [c4_stabilizer.2.2 3 4 Status.NEUTRAL Status.CHILL (by decide)]
  decide

/-! ## C6: sustained CHILL for the delta-strategy classifier -/

theorem takeR_replicate {α : Type} (n k : ℕ) (x : α) :
    takeR n (List.replicate k x) = List.replicate (min n k) x := by
  unfold takeR
  rw [List.length_replicate, List.drop_replicate]
  congr 1
  omega

theorem mean_replicate (s k : ℕ) (x : ℚ) (hk : k ≠ 0) :
    RollingMean.mean ⟨s, List.replicate k x⟩ = some x := by
  unfold RollingMean.mean
  rw [if_neg (by simp [hk, List.isEmpty_iff])]
  congr 1
  simp only [List.sum_replicate, List.length_replicate]
  rw [nsmul_eq_mul]
  field_simp

theorem deltaRun_append (t : ℕ) (b cd hd : ℚ) (c : StateClassifier)
    (l1 l2 : List ℚ) :
    deltaRun t b cd hd c (l1 ++ l2)
      = ((deltaRun t b cd hd (deltaRun t b cd hd c l1).1 l2).1,
         (deltaRun t b cd hd c l1).2
           ++ (deltaRun t b cd hd (deltaRun t b cd hd c l1).1 l2).2) := by
  induction l1 generalizing c with
  | nil => simp [deltaRun]
  | cons y ys ih => simp [deltaRun, ih]

theorem deltaStep (ssize t : ℕ) (hs : 1 ≤ ssize) (b cd hd x : ℚ)
    (hx : b + cd < x) (m : ℕ) :
    (deltaState ssize t x m).update t b cd hd x
      = (deltaState ssize t x (m + 1),
         if ssize ≤ m + 1 ∧ max 2 t ≤ m + 2 - ssize then Status.CHILL
         else Status.NEUTRAL) := by
  have hbuf : (deltaState ssize t x m).smooth.add x
      = ⟨ssize, List.replicate (min (m + 1) ssize) x⟩ := by
    show (⟨ssize, takeR ssize (List.replicate (min m ssize) x ++ [x])⟩ : RollingMean) = _
    rw [← List.replicate_succ', takeR_replicate]
    congr 2
    omega
  have hstab : (deltaState ssize t x m).stab
      = repState t Status.NEUTRAL Status.CHILL (m + 1 - ssize) := rfl
  have hcand : deltaCandidate b cd hd x = Status.CHILL := by
    unfold deltaCandidate
    rw [if_pos (le_of_lt hx)]
  unfold StateClassifier.update
  rw [hbuf, mean_replicate ssize _ x (by omega), hstab]
  dsimp only
  rw [hcand]
  by_cases hready : ssize ≤ m + 1
  · have hrd : (⟨ssize, List.replicate (min (m + 1) ssize) x⟩ : RollingMean).is_ready := by
      unfold RollingMean.is_ready
      simp only [List.length_replicate]
      omega
    rw [if_pos hrd]
    have hrep : m + 1 - ssize + 1 = m + 2 - ssize := by omega
    have hstep := repStep t Status.NEUTRAL Status.CHILL (by decide) (m + 1 - ssize)
    rw [hrep] at hstep
    rw [hstep]
    unfold deltaState
    have hrep2 : m + 1 + 1 - ssize = m + 2 - ssize := by omega
    rw [hrep2]
    by_cases hflip : max 2 t ≤ m + 2 - ssize
    · rw [if_pos hflip, if_pos ⟨hready, hflip⟩]
    · rw [if_neg hflip, if_neg (by tauto)]
  · have hrd : ¬ (⟨ssize, List.replicate (min (m + 1) ssize) x⟩ : RollingMean).is_ready := by
      unfold RollingMean.is_ready
      simp only [List.length_replicate]
      omega
    rw [if_neg hrd, if_neg (by tauto)]
    unfold deltaState
    have h0 : m + 1 - ssize = 0 := by omega
    have h1 : m + 1 + 1 - ssize = 0 := by omega
    rw [h0, h1]

theorem deltaRun_const (ssize t : ℕ) (hs : 1 ≤ ssize) (b cd hd x : ℚ)
    (hx : b + cd < x) (n : ℕ) :
    (deltaRun t b cd hd (deltaInit ssize) (List.replicate n x)).1
        = deltaState ssize t x n ∧
    (deltaRun t b cd hd (deltaInit ssize) (List.replicate n x)).2
      = (List.range n).map (fun i =>
          if ssize ≤ i + 1 ∧ max 2 t ≤ i + 2 - ssize then Status.CHILL
          else Status.NEUTRAL) := by
  induction n with
  | zero =>
    constructor
    · simp only [List.replicate, deltaRun, deltaInit, deltaState]
      have h0 : 0 + 1 - ssize = 0 := by omega
      rw [h0]
      have h2 : repState t Status.NEUTRAL Status.CHILL 0 = stabInit := by
        unfold repState stabInit
        rw [if_neg (by simp only [max_le_iff]; omega)]
        simp
      rw [h2, Nat.zero_min]
      rfl
    · simp [deltaRun]
  | succ n ih =>
    rw [List.replicate_succ', deltaRun_append, ih.1, ih.2]
    have hstep := deltaStep ssize t hs b cd hd x hx n
    constructor
    · simp [deltaRun, hstep]
    · simp [deltaRun, hstep, List.range_succ]

/-- C6: for the delta-strategy classifier over a constant metric stream
strictly above `baseline + chill_delta`, every sample processed once at
least `smooth_size + status_switch_threshold` samples have gone by is
emitted as CHILL (the status has become and remains CHILL).
Modelled from the spec: the delta-strategy `StateClassifier` is
missing from `src/signal/state.py` (see `StateClassifier`); its rolling
mean and stabilizer are the embeddings from the source. -/
theorem c6_constant_stream_chill (ssize t : ℕ) (hs : 1 ≤ ssize) (ht : 1 ≤ t)
    (b cd hd x : ℚ) (hx : b + cd < x) (n i : ℕ) (hi : i < n)
    (hn : ssize + t ≤ i + 1) :
    ((deltaRun t b cd hd (deltaInit ssize) (List.replicate n x)).2).getD i
      Status.NEUTRAL = Status.CHILL := by
  rw [(deltaRun_const ssize t hs b cd hd x hx n).2]
  have hidx : ((List.range n).map (fun i =>
      if ssize ≤ i + 1 ∧ max 2 t ≤ i + 2 - ssize then Status.CHILL
      else Status.NEUTRAL))[i]?
      = some (if ssize ≤ i + 1 ∧ max 2 t ≤ i + 2 - ssize then Status.CHILL
        else Status.NEUTRAL) := by
    rw [List.getElem?_map, List.getElem?_range hi]
    rfl
  rw [List.getD_eq_getElem?_getD, hidx, Option.getD_some]
  rw [if_pos]
  constructor
  · omega
  · simp only [max_le_iff]
    omega

/-- Witness for C6: with `smooth_size = 2`, threshold 2, baseline 10,
`chill_delta = 5` and the constant stream 20, the fourth sample is
emitted as CHILL. -/
theorem c6_witness :
    ((deltaRun 2 10 5 5 (deltaInit 2) (List.replicate 4 (20 : ℚ))).2).getD 3
      Status.NEUTRAL = Status.CHILL :=
  c6_constant_stream_chill 2 2 (by norm_num) (by norm_num) 10 5 5 20
    (by norm_num) 4 3 (by norm_num) (by norm_num)

/-! ## C5: noise immunity of the classifier -/

theorem takeR_nil {α : Type} (n : ℕ) : takeR n ([] : List α) = [] := by
  unfold takeR
  simp

theorem filterMap_snd_length (l : List (ℚ × Option ℚ))
    (h : ∀ a ∈ l, a.2.isSome) : (l.filterMap Prod.snd).length = l.length := by
  induction l with
  | nil => rfl
  | cons a rest ih =>
    have ha := h a (List.mem_cons_self a rest)
    obtain ⟨v, hv⟩ := Option.isSome_iff_exists.mp ha
    have hr : ∀ b ∈ rest, b.2.isSome := fun b hb => h b (List.mem_cons_of_mem a hb)
    simp [List.filterMap_cons, hv, ih hr]

theorem clfStep_descr (cfg : ClfConfig) (bp bh : ℚ)
    (done : List (ℚ × Option ℚ)) (st : StabState) (p : ℚ) (h : Option ℚ) :
    FixedBaselineClassifier.update cfg
      ⟨⟨cfg.smooth_size, takeR cfg.smooth_size (done.map Prod.fst)⟩,
       ⟨cfg.hr_smooth_size, takeR cfg.hr_smooth_size (done.filterMap Prod.snd)⟩,
       some bp, some bh, st⟩ p h
    = (⟨⟨cfg.smooth_size, takeR cfg.smooth_size ((done ++ [(p, h)]).map Prod.fst)⟩,
        ⟨cfg.hr_smooth_size,
         takeR cfg.hr_smooth_size ((done ++ [(p, h)]).filterMap Prod.snd)⟩,
        some bp, some bh,
        (optStep cfg.status_switch_threshold st
          (candPre cfg bp bh (done ++ [(p, h)]))).1⟩,
       ((⟨cfg.smooth_size,
          takeR cfg.smooth_size ((done ++ [(p, h)]).map Prod.fst)⟩ : RollingMean).mean,
        some bp,
        (optStep cfg.status_switch_threshold st
          (candPre cfg bp bh (done ++ [(p, h)]))).2)) := by
  have hP : (⟨cfg.smooth_size, takeR cfg.smooth_size (done.map Prod.fst)⟩ :
      RollingMean).add p
      = ⟨cfg.smooth_size, takeR cfg.smooth_size ((done ++ [(p, h)]).map Prod.fst)⟩ := by
    show (⟨cfg.smooth_size,
      takeR cfg.smooth_size (takeR cfg.smooth_size (done.map Prod.fst) ++ [p])⟩ :
        RollingMean) = _
    rw [takeR_append_takeR]
    simp
  have hH : clfHrSmooth
      ⟨⟨cfg.smooth_size, takeR cfg.smooth_size (done.map Prod.fst)⟩,
       ⟨cfg.hr_smooth_size, takeR cfg.hr_smooth_size (done.filterMap Prod.snd)⟩,
       some bp, some bh, st⟩ h
      = ⟨cfg.hr_smooth_size,
         takeR cfg.hr_smooth_size ((done ++ [(p, h)]).filterMap Prod.snd)⟩ := by
    cases h with
    | none =>
      show (⟨cfg.hr_smooth_size, takeR cfg.hr_smooth_size (done.filterMap Prod.snd)⟩ :
        RollingMean) = _
      simp [List.filterMap_append]
    | some hv =>
      show (⟨cfg.hr_smooth_size,
        takeR cfg.hr_smooth_size
          (takeR cfg.hr_smooth_size (done.filterMap Prod.snd) ++ [hv])⟩ :
          RollingMean) = _
      rw [takeR_append_takeR]
      simp [List.filterMap_append]
  unfold FixedBaselineClassifier.update
  dsimp only
  rw [hP, hH]
  unfold candPre RollingMean.mean RollingMean.is_ready optStep
  by_cases hPB : ((takeR cfg.smooth_size ((done ++ [(p, h)]).map Prod.fst)).isEmpty : Prop)
  · rw [if_pos hPB, if_pos (Or.inl hPB)]
  · rw [if_neg hPB]
    by_cases hHB :
        ((takeR cfg.hr_smooth_size ((done ++ [(p, h)]).filterMap Prod.snd)).isEmpty : Prop)
    · rw [if_pos hHB, if_pos (Or.inr (Or.inr (Or.inl hHB)))]
    · rw [if_neg hHB]
      dsimp only
      by_cases hRdy :
          cfg.smooth_size ≤ (takeR cfg.smooth_size ((done ++ [(p, h)]).map Prod.fst)).length
          ∧ cfg.hr_smooth_size
            ≤ (takeR cfg.hr_smooth_size ((done ++ [(p, h)]).filterMap Prod.snd)).length
      · rw [if_pos hRdy,
          if_neg (show ¬_ by
            push_neg
            exact ⟨hPB, hRdy.1, hHB, hRdy.2⟩)]
      · rw [if_neg hRdy,
          if_pos (show _ by
            rcases not_and_or.mp hRdy with hA | hB
            · exact Or.inr (Or.inl (not_le.mp hA))
            · exact Or.inr (Or.inr (Or.inr (not_le.mp hB))))]

theorem clfRun_outputs (cfg : ClfConfig) (bp bh : ℚ) :
    ∀ (rest done : List (ℚ × Option ℚ)) (st : StabState),
      (clfRun cfg ⟨⟨cfg.smooth_size, takeR cfg.smooth_size (done.map Prod.fst)⟩,
        ⟨cfg.hr_smooth_size, takeR cfg.hr_smooth_size (done.filterMap Prod.snd)⟩,
        some bp, some bh, st⟩ rest).2
      = (optRun cfg.status_switch_threshold st
          ((List.range rest.length).map
            (fun i => candPre cfg bp bh (done ++ rest.take (i + 1))))).2 := by
  intro rest
  induction rest with
  | nil => intro done st; simp [clfRun, optRun]
  | cons a rest ih =>
    intro done st
    obtain ⟨p, h⟩ := a
    have hstep := clfStep_descr cfg bp bh done st p h
    simp only [clfRun, hstep]
    rw [ih (done ++ [(p, h)])]
    simp only [List.length_cons, List.range_succ_eq_map, List.map_cons, List.map_map]
    simp only [optRun, List.take_succ_cons, List.take_zero]
    have hmap : List.map
        (fun i => candPre cfg bp bh (done ++ [(p, h)] ++ List.take (i + 1) rest))
        (List.range rest.length)
        = List.map ((fun i => candPre cfg bp bh (done ++ (p, h) :: List.take i rest))
            ∘ Nat.succ) (List.range rest.length) := by
      apply List.map_congr_left
      intro i _
      simp [Function.comp, List.append_assoc]
    rw [hmap]

theorem optRun_neutral (th k M : ℕ) (hM : M < th) :
    ∀ (cs : List (Option Status)) (pos : ℕ) (st : StabState),
      st.cur = Status.NEUTRAL → st.hits ≤ pos - k →
      (∀ (j : ℕ) (hj : j < cs.length), (pos + j < k ∨ k + M ≤ pos + j) →
        cs.get ⟨j, hj⟩ = none ∨ cs.get ⟨j, hj⟩ = some Status.NEUTRAL) →
      ∀ o ∈ (optRun th st cs).2, o = Status.NEUTRAL := by
  intro cs
  induction cs with
  | nil =>
    intro pos st _ _ _ o ho
    simp [optRun] at ho
  | cons c cs ih =>
    intro pos st hcur hhits hcs o ho
    have hkey : ((optStep th st c).1).cur = Status.NEUTRAL ∧
        (optStep th st c).2 = Status.NEUTRAL ∧
        ((optStep th st c).1).hits ≤ pos + 1 - k := by
      cases c with
      | none => exact ⟨hcur, rfl, show st.hits ≤ pos + 1 - k by omega⟩
      | some cand =>
        by_cases hphase : pos < k ∨ k + M ≤ pos
        · have h0 := hcs 0 (by simp) (by simpa using hphase)
          have hcand : cand = Status.NEUTRAL := by
            rcases h0 with h0 | h0
            · exact absurd h0 (by simp)
            · simpa using h0
          subst hcand
          have hstep_eq : optStep th st (some Status.NEUTRAL)
              = (⟨st.cur, Status.NEUTRAL, 0⟩, st.cur) := by
            show stabilize_status th st Status.NEUTRAL = _
            unfold stabilize_status
            rw [if_pos (by rw [hcur])]
          rw [hstep_eq]
          exact ⟨hcur, hcur, show (0:ℕ) ≤ pos + 1 - k by omega⟩
        · push_neg at hphase
          obtain ⟨hp1, hp2⟩ := hphase
          by_cases h1 : cand = st.cur
          · have hstep_eq : optStep th st (some cand)
                = (⟨st.cur, cand, 0⟩, st.cur) := by
              show stabilize_status th st cand = _
              unfold stabilize_status
              rw [if_pos h1]
            rw [hstep_eq]
            exact ⟨hcur, hcur, show (0:ℕ) ≤ pos + 1 - k by omega⟩
          · by_cases h2 : cand ≠ st.target
            · have hstep_eq : optStep th st (some cand)
                  = (⟨st.cur, cand, 1⟩, st.cur) := by
                show stabilize_status th st cand = _
                unfold stabilize_status
                rw [if_neg h1, if_pos h2]
              rw [hstep_eq]
              exact ⟨hcur, hcur, show (1:ℕ) ≤ pos + 1 - k by omega⟩
            · have hnoflip : ¬ (max 1 th ≤ st.hits + 1) := by
                simp only [max_le_iff, not_and_or]
                right
                omega
              have hstep_eq : optStep th st (some cand)
                  = (⟨st.cur, st.target, st.hits + 1⟩, st.cur) := by
                show stabilize_status th st cand = _
                unfold stabilize_status
                rw [if_neg h1, if_neg h2, if_neg hnoflip]
              rw [hstep_eq]
              exact ⟨hcur, hcur, show st.hits + 1 ≤ pos + 1 - k by omega⟩
    simp only [optRun] at ho
    rcases List.mem_cons.mp ho with ho | ho
    · rw [ho]
      exact hkey.2.1
    · exact ih (pos + 1) (optStep th st c).1 hkey.1 hkey.2.2
        (fun j hj hcond => by
          have := hcs (j + 1) (by simpa using Nat.succ_lt_succ hj)
            (by omega)
          simpa using this) o ho

theorem candPre_short (cfg : ClfConfig) (bp bh : ℚ)
    (xs1 xs2 : List (ℚ × Option ℚ)) (ν : ℚ × Option ℚ) (j : ℕ)
    (hj : j ≤ xs1.length) :
    candPre cfg bp bh ((xs1 ++ [ν] ++ xs2).take j)
      = candPre cfg bp bh ((xs1 ++ xs2).take j) := by
  congr 1
  rw [List.append_assoc, List.take_append_of_le_length hj,
    List.take_append_of_le_length hj]

theorem candPre_post (cfg : ClfConfig) (bp bh : ℚ)
    (xs1 xs2 : List (ℚ × Option ℚ)) (ν : ℚ × Option ℚ) (i : ℕ)
    (hsome : ∀ a ∈ xs2, a.2.isSome)
    (hp : cfg.smooth_size ≤ i) (hh : cfg.hr_smooth_size ≤ i)
    (hlen : i ≤ xs2.length) :
    candPre cfg bp bh (xs1 ++ [ν] ++ xs2.take i)
      = candPre cfg bp bh (xs1 ++ xs2.take i) := by
  have hmap : takeR cfg.smooth_size ((xs1 ++ [ν] ++ xs2.take i).map Prod.fst)
      = takeR cfg.smooth_size ((xs1 ++ xs2.take i).map Prod.fst) := by
    have hlen2 : cfg.smooth_size ≤ ((xs2.take i).map Prod.fst).length := by
      simp only [List.length_map, List.length_take]
      omega
    have e1 : (xs1 ++ [ν] ++ xs2.take i).map Prod.fst
        = (xs1 ++ [ν]).map Prod.fst ++ (xs2.take i).map Prod.fst := by
      rw [List.map_append]
    have e2 : (xs1 ++ xs2.take i).map Prod.fst
        = xs1.map Prod.fst ++ (xs2.take i).map Prod.fst := by
      rw [List.map_append]
    rw [e1, e2, takeR_append_right _ _ _ hlen2, takeR_append_right _ _ _ hlen2]
  have hfm : takeR cfg.hr_smooth_size ((xs1 ++ [ν] ++ xs2.take i).filterMap Prod.snd)
      = takeR cfg.hr_smooth_size ((xs1 ++ xs2.take i).filterMap Prod.snd) := by
    have hsome2 : ∀ a ∈ xs2.take i, a.2.isSome :=
      fun a ha => hsome a (List.take_subset i xs2 ha)
    have hlen2 : cfg.hr_smooth_size ≤ ((xs2.take i).filterMap Prod.snd).length := by
      rw [filterMap_snd_length _ hsome2]
      simp only [List.length_take]
      omega
    have e1 : (xs1 ++ [ν] ++ xs2.take i).filterMap Prod.snd
        = (xs1 ++ [ν]).filterMap Prod.snd ++ (xs2.take i).filterMap Prod.snd := by
      rw [List.filterMap_append]
    have e2 : (xs1 ++ xs2.take i).filterMap Prod.snd
        = xs1.filterMap Prod.snd ++ (xs2.take i).filterMap Prod.snd := by
      rw [List.filterMap_append]
    rw [e1, e2, takeR_append_right _ _ _ hlen2, takeR_append_right _ _ _ hlen2]
  unfold candPre
  rw [hmap, hfm]

/-- C5 (amended): inserting a single noise sample `ν` anywhere into a
stream whose every raw per-sample candidate is NEUTRAL never flips the
emitted status away from NEUTRAL, provided
`status_switch_threshold > max smooth_size hr_smooth_size` — the noise
influences at most `max smooth_size hr_smooth_size` consecutive
rolling-mean windows, fewer than the streak the stabilizer requires.
(The original claim only required `status_switch_threshold > 1`; the
counterexample shows a flip with threshold 2 and smoothing window 5.) -/
theorem c5_noise_immunity (cfg : ClfConfig) (bp bh : ℚ)
    (ht : max cfg.smooth_size cfg.hr_smooth_size < cfg.status_switch_threshold)
    (xs1 xs2 : List (ℚ × Option ℚ)) (ν : ℚ × Option ℚ)
    (hsome : ∀ a ∈ xs2, a.2.isSome)
    (hneutral : ∀ j : ℕ,
      candPre cfg bp bh ((xs1 ++ xs2).take j) = none ∨
      candPre cfg bp bh ((xs1 ++ xs2).take j) = some Status.NEUTRAL) :
    ∀ o ∈ (clfRun cfg (set_baseline cfg bp bh) (xs1 ++ [ν] ++ xs2)).2,
      o = Status.NEUTRAL := by
  intro o ho
  have hinit : set_baseline cfg bp bh
      = ⟨⟨cfg.smooth_size,
          takeR cfg.smooth_size (([] : List (ℚ × Option ℚ)).map Prod.fst)⟩,
         ⟨cfg.hr_smooth_size,
          takeR cfg.hr_smooth_size (([] : List (ℚ × Option ℚ)).filterMap Prod.snd)⟩,
         some bp, some bh, stabInit⟩ := by
    unfold set_baseline
    rw [List.map_nil, List.filterMap_nil, takeR_nil, takeR_nil]
  rw [hinit, clfRun_outputs cfg bp bh (xs1 ++ [ν] ++ xs2) [] stabInit] at ho
  refine optRun_neutral cfg.status_switch_threshold xs1.length
    (max cfg.smooth_size cfg.hr_smooth_size) ht _ 0 stabInit rfl (by simp [stabInit]) ?_ o ho
  intro j hj hcond
  have hjlen : j < xs1.length + 1 + xs2.length := by
    have := hj
    simp only [List.length_map, List.length_range, List.length_append,
      List.length_cons, List.length_nil] at this
    omega
  have hget : ((List.range (xs1 ++ [ν] ++ xs2).length).map
      (fun i => candPre cfg bp bh ([] ++ (xs1 ++ [ν] ++ xs2).take (i + 1)))).get ⟨j, hj⟩
      = candPre cfg bp bh ((xs1 ++ [ν] ++ xs2).take (j + 1)) := by
    simp
  rw [hget]
  rcases hcond with hc | hc
  · rw [candPre_short cfg bp bh xs1 xs2 ν (j + 1) (by omega)]
    exact hneutral (j + 1)
  · have hdec1 : (xs1 ++ [ν] ++ xs2).take (j + 1)
        = xs1 ++ [ν] ++ xs2.take (j - xs1.length) := by
      rw [List.append_assoc, List.append_assoc]
      have h1 : j + 1 = xs1.length + (1 + (j - xs1.length)) := by omega
      rw [h1, List.take_append]
      congr 1
      have h2 : 1 + (j - xs1.length) = (j - xs1.length) + 1 := by omega
      rw [h2]
      rw [show ([ν] ++ xs2 : List (ℚ × Option ℚ)) = ν :: xs2 by simp]
      rw [List.take_succ_cons]
      simp
    have hdec2 : (xs1 ++ xs2).take j = xs1 ++ xs2.take (j - xs1.length) := by
      have h1 : j = xs1.length + (j - xs1.length) := by omega
      rw [h1, List.take_append]
      congr 2
      omega
    rw [hdec1, candPre_post cfg bp bh xs1 xs2 ν (j - xs1.length) hsome
      (by omega) (by omega) (by omega), ← hdec2]
    exact hneutral j

theorem clfRun_length (cfg : ClfConfig) :
    ∀ (l : List (ℚ × Option ℚ)) (c : FixedBaselineClassifier),
      (clfRun cfg c l).2.length = l.length := by
  intro l
  induction l with
  | nil => intro c; rfl
  | cons a rest ih =>
    intro c
    obtain ⟨p, h⟩ := a
    simp [clfRun, ih]

/-- C5 counterexample: with `status_switch_threshold = 2 > 1` and
smoothing window 5, the constant stream `(pNN50 = 10, HR = 60)` under
baselines `(10, 60)` is emitted NEUTRAL at every step, but inserting
the single noise sample `(100, 60)` after the fifth sample flips the
emitted status to CHILL two samples later. -/
theorem c5_counterexample :
    (clfRun ⟨5, 1, 2, 21/20, 53/50, 21/20, 19/20⟩
        (set_baseline ⟨5, 1, 2, 21/20, 53/50, 21/20, 19/20⟩ 10 60)
        (List.replicate 6 ((10 : ℚ), some (60 : ℚ)))).2
      = List.replicate 6 Status.NEUTRAL ∧
    (clfRun ⟨5, 1, 2, 21/20, 53/50, 21/20, 19/20⟩
        (set_baseline ⟨5, 1, 2, 21/20, 53/50, 21/20, 19/20⟩ 10 60)
        (List.replicate 5 ((10 : ℚ), some (60 : ℚ)) ++ [((100 : ℚ), some (60 : ℚ))]
          ++ [((10 : ℚ), some (60 : ℚ))])).2
      = [Status.NEUTRAL, Status.NEUTRAL, Status.NEUTRAL, Status.NEUTRAL,
         Status.NEUTRAL, Status.NEUTRAL, Status.CHILL] ∧
    (1 : ℕ) < 2 := by
  refine ⟨?_, ?_, by norm_num⟩
  · norm_num [clfRun, set_baseline, FixedBaselineClassifier.update, clfHrSmooth,
      clfCandidate, RollingMean.add, RollingMean.mean, RollingMean.is_ready,
      stabilize_status, stabInit, takeR, List.replicate]
  · norm_num [clfRun, set_baseline, FixedBaselineClassifier.update, clfHrSmooth,
      clfCandidate, RollingMean.add, RollingMean.mean, RollingMean.is_ready,
      stabilize_status, stabInit, takeR, List.replicate]
    decide

/-- Witness for C5: with smoothing windows 2 and 1 and threshold 4,
inserting the noise sample `(100, 60)` into a two-sample NEUTRAL
stream leaves every emitted status NEUTRAL. -/
theorem c5_witness :
    (clfRun ⟨2, 1, 4, 21/20, 53/50, 21/20, 19/20⟩
        (set_baseline ⟨2, 1, 4, 21/20, 53/50, 21/20, 19/20⟩ 10 60)
        ([((10 : ℚ), some (60 : ℚ))] ++ [((100 : ℚ), some (60 : ℚ))]
          ++ [((10 : ℚ), some (60 : ℚ))])).2
      = List.replicate 3 Status.NEUTRAL := by
  have hall := c5_noise_immunity ⟨2, 1, 4, 21/20, 53/50, 21/20, 19/20⟩ 10 60
    (by decide)
    [((10 : ℚ), some (60 : ℚ))] [((10 : ℚ), some (60 : ℚ))]
    ((100 : ℚ), some (60 : ℚ))
    (by simp)
    (by
      intro j
      match j with
      | 0 => left; norm_num [candPre, takeR]
      | 1 => left; norm_num [candPre, clfCandidate, takeR]
      | (n + 2) =>
        right
        have htake : ([((10 : ℚ), some (60 : ℚ))] ++ [((10 : ℚ), some (60 : ℚ))]).take (n + 2)
            = [((10 : ℚ), some (60 : ℚ)), ((10 : ℚ), some (60 : ℚ))] := by
          apply List.take_of_length_le
          simp
        rw [htake]
        norm_num [candPre, clfCandidate, takeR, List.filterMap_cons, List.filterMap_nil])
  rw [List.eq_replicate_iff]
  constructor
  · rw [clfRun_length]
    rfl
  · exact fun b hb => hall b hb

/-! ## C7: rest-phase end — fatal calibration errors and the one-time baseline -/

theorem countSaves_append (a b : List SessionEff) :
    countSaves (a ++ b) = countSaves a + countSaves b := by
  unfold countSaves
  rw [List.filter_append, List.length_append]

theorem countInserts_append (a b : List SessionEff) :
    countInserts (a ++ b) = countInserts a + countInserts b := by
  unfold countInserts
  rw [List.filter_append, List.length_append]

theorem pendUpdate_no_save (cd : ℚ) (tr : String) (now : ℚ) (st : Status)
    (v : ℚ) (p : Pending) (db : DigMusicDB) :
    countSaves (update_pending_and_maybe_save cd tr now st v p db).2.2 = 0 := by
  unfold update_pending_and_maybe_save
  split_ifs <;> simp [countSaves]

theorem session_step_rest_none (cd : ℚ) (s : MeasureSession) (i : SessionInput)
    (h : s.rest_end_epoch = none) :
    countSaves (session_step cd s i).2.1 = 0 ∧
    (session_step cd s i).1.rest_end_epoch = none := by
  unfold session_step
  dsimp only
  by_cases hacc : (add_rr 30 600 s.calc_ i.rr_ms).1 = true
  · rw [if_neg (by simp [hacc]), h]
    dsimp only
    cases hp : (pnn50_percent 10 (add_rr 30 600 s.calc_ i.rr_ms).2).1 with
    | none => exact ⟨rfl, rfl⟩
    | some pv =>
      exact ⟨pendUpdate_no_save cd i.track i.now _ _ s.pending s.db, rfl⟩
  · rw [if_pos (by simpa using hacc)]
    exact ⟨rfl, h⟩

theorem session_step_save_le (cd : ℚ) (s : MeasureSession) (i : SessionInput) :
    countSaves (session_step cd s i).2.1 ≤ 1 ∧
    (1 ≤ countSaves (session_step cd s i).2.1 →
      (session_step cd s i).1.rest_end_epoch = none) := by
  unfold session_step
  dsimp only
  by_cases hacc : (add_rr 30 600 s.calc_ i.rr_ms).1 = true
  · rw [if_neg (by simp [hacc])]
    cases hre : s.rest_end_epoch with
    | none =>
      dsimp only
      cases hp : (pnn50_percent 10 (add_rr 30 600 s.calc_ i.rr_ms).2).1 with
      | none => exact ⟨Nat.zero_le 1, fun _ => rfl⟩
      | some pv =>
        exact ⟨le_trans (le_of_eq
          (pendUpdate_no_save cd i.track i.now _ _ s.pending s.db)) (Nat.zero_le 1),
          fun _ => rfl⟩
    | some re =>
      dsimp only
      by_cases hnow : i.now < re
      · rw [if_pos hnow]
        exact ⟨Nat.zero_le 1, fun hc => absurd hc (Nat.not_succ_le_zero 0)⟩
      · rw [if_neg hnow]
        by_cases hpv : s.rest_p_values = []
        · rw [if_pos hpv]
          exact ⟨Nat.zero_le 1, fun _ => rfl⟩
        · rw [if_neg hpv]
          by_cases hhv : s.rest_hr_values = []
          · rw [if_pos hhv]
            exact ⟨Nat.zero_le 1, fun _ => rfl⟩
          · rw [if_neg hhv]
            exact ⟨Nat.le_refl 1, fun _ => rfl⟩
  · rw [if_pos (by simpa using hacc)]
    exact ⟨Nat.zero_le 1, fun hc => absurd hc (Nat.not_succ_le_zero 0)⟩

theorem sessionRun_save_bound (cd : ℚ) :
    ∀ (inputs : List SessionInput) (s : MeasureSession),
      countSaves (sessionRun cd s inputs).2.1 ≤ 1 ∧
      (s.rest_end_epoch = none → countSaves (sessionRun cd s inputs).2.1 = 0) := by
  intro inputs
  induction inputs with
  | nil => intro s; exact ⟨by norm_num [sessionRun, countSaves], fun _ => by
      norm_num [sessionRun, countSaves]⟩
  | cons i rest ih =>
    intro s
    have hstep := session_step_save_le cd s i
    have hnone := session_step_rest_none cd s i
    unfold sessionRun
    dsimp only
    cases herr : (session_step cd s i).2.2 with
    | some e =>
      exact ⟨hstep.1, fun hn => (hnone hn).1⟩
    | none =>
      dsimp only
      rw [countSaves_append]
      constructor
      · rcases Nat.eq_zero_or_pos (countSaves (session_step cd s i).2.1) with h0 | h1
        · rw [h0]
          simpa using (ih (session_step cd s i).1).1
        · have hre := hstep.2 h1
          have := (ih (session_step cd s i).1).2 hre
          omega
      · intro hn
        rw [(hnone hn).1, (ih (session_step cd s i).1).2 (hnone hn).2]

/-- C7: when an accepted sample arrives at or after the rest deadline,
an empty rest-phase pNN50 accumulator (or, failing that, an empty HR
accumulator) raises the fatal calibration error with no baseline write
and no classifier baseline set; otherwise the transition to RUNNING
fixes the classifier baseline to the arithmetic mean of each
accumulator and writes it exactly once — any session run performs at
most one baseline write. -/
theorem c7_calibration :
    (∀ (cd : ℚ) (s : MeasureSession) (i : SessionInput) (re : ℚ),
      (add_rr 30 600 s.calc_ i.rr_ms).1 = true →
      s.rest_end_epoch = some re → ¬ i.now < re →
      s.rest_p_values = [] →
      (session_step cd s i).2.2 = some CalibrationError.noPnn50Samples ∧
      (session_step cd s i).2.1 = [] ∧
      (session_step cd s i).1.clf = s.clf) ∧
    (∀ (cd : ℚ) (s : MeasureSession) (i : SessionInput) (re : ℚ),
      (add_rr 30 600 s.calc_ i.rr_ms).1 = true →
      s.rest_end_epoch = some re → ¬ i.now < re →
      s.rest_p_values ≠ [] → s.rest_hr_values = [] →
      (session_step cd s i).2.2 = some CalibrationError.noHrSamples ∧
      (session_step cd s i).2.1 = [] ∧
      (session_step cd s i).1.clf = s.clf) ∧
    (∀ (cd : ℚ) (s : MeasureSession) (i : SessionInput) (re : ℚ),
      (add_rr 30 600 s.calc_ i.rr_ms).1 = true →
      s.rest_end_epoch = some re → ¬ i.now < re →
      s.rest_p_values ≠ [] → s.rest_hr_values ≠ [] →
      (session_step cd s i).2.2 = none ∧
      (session_step cd s i).2.1
        = [SessionEff.saveBaseline (s.rest_p_values.sum / s.rest_p_values.length)] ∧
      (session_step cd s i).1.clf
        = set_baseline sessionClfConfig
            (s.rest_p_values.sum / s.rest_p_values.length)
            (s.rest_hr_values.sum / s.rest_hr_values.length) ∧
      (session_step cd s i).1.baseline_fixed
        = some (s.rest_p_values.sum / s.rest_p_values.length) ∧
      (session_step cd s i).1.rest_end_epoch = none) ∧
    (∀ (cd : ℚ) (s : MeasureSession) (inputs : List SessionInput),
      countSaves (sessionRun cd s inputs).2.1 ≤ 1) := by
  refine ⟨?_, ?_, ?_, ?_⟩
  · intro cd s i re hacc hre hnow hp
    unfold session_step
    dsimp only
    rw [if_neg (by simp [hacc]), hre]
    dsimp only
    rw [if_neg hnow, if_pos hp]
    exact ⟨rfl, rfl, rfl⟩
  · intro cd s i re hacc hre hnow hp hh
    unfold session_step
    dsimp only
    rw [if_neg (by simp [hacc]), hre]
    dsimp only
    rw [if_neg hnow, if_neg hp, if_pos hh]
    exact ⟨rfl, rfl, rfl⟩
  · intro cd s i re hacc hre hnow hp hh
    unfold session_step
    dsimp only
    rw [if_neg (by simp [hacc]), hre]
    dsimp only
    rw [if_neg hnow, if_neg hp, if_neg hh]
    exact ⟨rfl, rfl, rfl, rfl, rfl⟩
  · intro cd s inputs
    exact (sessionRun_save_bound cd inputs s).1

/-- Witness for C7: an accepted sample past the deadline with an empty
pNN50 accumulator raises the calibration error, and with the spec's
rest-phase samples `[20, 22, 18]` (and one HR sample) the baseline
write is exactly `saveBaseline 20`. -/
theorem c7_witness :
    (session_step 60
      ⟨⟨[800], none⟩, clfInit sessionClfConfig, some 5, [], [], none,
        pendingInit, ⟨[], []⟩, "—"⟩ ⟨10, 800, "x"⟩).2.2
      = some CalibrationError.noPnn50Samples ∧
    (session_step 60
      ⟨⟨[800], none⟩, clfInit sessionClfConfig, some 5, [20, 22, 18], [60], none,
        pendingInit, ⟨[], []⟩, "—"⟩ ⟨10, 800, "x"⟩).2.1
      = [SessionEff.saveBaseline 20] := by
  constructor
  · exact (c7_calibration.1 60
      ⟨⟨[800], none⟩, clfInit sessionClfConfig, some 5, [], [], none,
        pendingInit, ⟨[], []⟩, "—"⟩ ⟨10, 800, "x"⟩ 5
      (by decide) rfl (by norm_num) rfl).1
  · have h := (c7_calibration.2.2.1 60
      ⟨⟨[800], none⟩, clfInit sessionClfConfig, some 5, [20, 22, 18], [60], none,
        pendingInit, ⟨[], []⟩, "—"⟩ ⟨10, 800, "x"⟩ 5
      (by decide) rfl (by norm_num) (by simp) (by simp)).2.1
    rw [h]
    norm_num

/-! ## C8 and C9: the episode debouncer -/

theorem pendUpdate_start (cd : ℚ) (tr : String) (now : ℚ) (S : Status) (v : ℚ)
    (p : Pending) (db : DigMusicDB)
    (hS : S = Status.CHILL ∨ S = Status.HYPE) (htr : tr ≠ "—")
    (hnew : p.pending_status ≠ some S ∨ p.pending_track ≠ some tr ∨
      p.pending_since = none) :
    update_pending_and_maybe_save cd tr now S v p db
      = (⟨some S, some now, some tr, false⟩, db, []) := by
  unfold update_pending_and_maybe_save
  rw [if_neg (not_not_intro hS), if_neg htr, if_pos hnew]

theorem pendUpdate_saved (cd : ℚ) (tr : String) (now : ℚ) (S : Status) (v t0 : ℚ)
    (db : DigMusicDB)
    (hS : S = Status.CHILL ∨ S = Status.HYPE) (htr : tr ≠ "—") :
    update_pending_and_maybe_save cd tr now S v ⟨some S, some t0, some tr, true⟩ db
      = (⟨some S, some t0, some tr, true⟩, db, []) := by
  unfold update_pending_and_maybe_save
  rw [if_neg (not_not_intro hS), if_neg htr, if_neg (by simp), if_pos (by simp)]

theorem pendUpdate_early (cd : ℚ) (tr : String) (now : ℚ) (S : Status) (v t0 : ℚ)
    (db : DigMusicDB)
    (hS : S = Status.CHILL ∨ S = Status.HYPE) (htr : tr ≠ "—")
    (h15 : now - t0 < 15) :
    update_pending_and_maybe_save cd tr now S v ⟨some S, some t0, some tr, false⟩ db
      = (⟨some S, some t0, some tr, false⟩, db, []) := by
  unfold update_pending_and_maybe_save
  rw [if_neg (not_not_intro hS), if_neg htr, if_neg (by simp), if_neg (by simp),
    if_pos (by simpa using h15)]

theorem pendUpdate_blocked (cd : ℚ) (tr : String) (now : ℚ) (S : Status) (v t0 : ℚ)
    (db : DigMusicDB)
    (hS : S = Status.CHILL ∨ S = Status.HYPE) (htr : tr ≠ "—")
    (h15 : 15 ≤ now - t0) (hcd : ¬ should_save_event_cooldown db now cd) :
    update_pending_and_maybe_save cd tr now S v ⟨some S, some t0, some tr, false⟩ db
      = (⟨some S, some t0, some tr, false⟩, db, []) := by
  unfold update_pending_and_maybe_save
  rw [if_neg (not_not_intro hS), if_neg htr, if_neg (by simp), if_neg (by simp),
    if_neg (by simpa using not_lt.mpr h15), if_pos hcd]

theorem pendUpdate_insert (cd : ℚ) (tr : String) (now : ℚ) (S : Status) (v t0 : ℚ)
    (db : DigMusicDB)
    (hS : S = Status.CHILL ∨ S = Status.HYPE) (htr : tr ≠ "—")
    (h15 : 15 ≤ now - t0) (hcd : should_save_event_cooldown db now cd) :
    update_pending_and_maybe_save cd tr now S v ⟨some S, some t0, some tr, false⟩ db
      = (⟨some S, some t0, some tr, true⟩,
         insert_event db ⟨now, S, v, (split_track tr).1, (split_track tr).2⟩,
         [.insertEvent ⟨now, S, v, (split_track tr).1, (split_track tr).2⟩]) := by
  unfold update_pending_and_maybe_save
  rw [if_neg (not_not_intro hS), if_neg htr, if_neg (by simp), if_neg (by simp),
    if_neg (by simpa using not_lt.mpr h15), if_neg (not_not_intro hcd)]

theorem pendRun_saved (cd : ℚ) (tr : String) (S : Status) (t0 : ℚ)
    (hS : S = Status.CHILL ∨ S = Status.HYPE) (htr : tr ≠ "—") :
    ∀ (rest : List (ℚ × ℚ)) (db : DigMusicDB),
      (pendRun cd tr S (⟨some S, some t0, some tr, true⟩, db) rest).2 = [] := by
  intro rest
  induction rest with
  | nil => intro db; rfl
  | cons a r ih =>
    intro db
    obtain ⟨now, v⟩ := a
    simp [pendRun, pendUpdate_saved cd tr now S v t0 db hS htr, ih db]

theorem pendRun_unsaved (cd : ℚ) (tr : String) (S : Status) (t0 : ℚ)
    (hS : S = Status.CHILL ∨ S = Status.HYPE) (htr : tr ≠ "—") :
    ∀ (rest : List (ℚ × ℚ)) (db : DigMusicDB),
      countInserts (pendRun cd tr S (⟨some S, some t0, some tr, false⟩, db) rest).2 ≤ 1 ∧
      ((∃ a ∈ rest, 15 ≤ a.1 - t0 ∧ should_save_event_cooldown db a.1 cd) →
        countInserts (pendRun cd tr S (⟨some S, some t0, some tr, false⟩, db) rest).2
          = 1) := by
  intro rest
  induction rest with
  | nil =>
    intro db
    exact ⟨by norm_num [pendRun, countInserts], fun h => by simp at h⟩
  | cons a r ih =>
    intro db
    obtain ⟨now, v⟩ := a
    by_cases h15 : now - t0 < 15
    · have hstep := pendUpdate_early cd tr now S v t0 db hS htr h15
      constructor
      · simp only [pendRun, hstep]
        simpa using (ih db).1
      · rintro ⟨a, ha, hc1, hc2⟩
        rcases List.mem_cons.mp ha with ha | ha
        · rw [ha] at hc1
          exact absurd hc1 (not_le.mpr h15)
        · simp only [pendRun, hstep]
          simpa using (ih db).2 ⟨a, ha, hc1, hc2⟩
    · push_neg at h15
      by_cases hcd : should_save_event_cooldown db now cd
      · have hstep := pendUpdate_insert cd tr now S v t0 db hS htr h15 hcd
        have hrest := pendRun_saved cd tr S t0 hS htr r
          (insert_event db ⟨now, S, v, (split_track tr).1, (split_track tr).2⟩)
        constructor
        · simp [pendRun, hstep, hrest, countInserts]
        · intro _
          simp [pendRun, hstep, hrest, countInserts]
      · have hstep := pendUpdate_blocked cd tr now S v t0 db hS htr h15 hcd
        constructor
        · simp only [pendRun, hstep]
          simpa using (ih db).1
        · rintro ⟨a, ha, hc1, hc2⟩
          rcases List.mem_cons.mp ha with ha | ha
          · rw [ha] at hc2
            exact absurd hc2 hcd
          · simp only [pendRun, hstep]
            simpa using (ih db).2 ⟨a, ha, hc1, hc2⟩

/-- C8 (amended): over a contiguous run of samples with the same
status in {CHILL, HYPE} and the same non-sentinel track, starting at
an episode boundary, at most one event is persisted; and exactly one
is persisted provided some sample of the run reaches the 15-second
sustained threshold while the cooldown check against the store as of
the episode start passes.  (The original claim promised exactly one
event unconditionally; the counterexample shows a sustained episode
whose every save attempt is cooldown-rejected persists no event.) -/
theorem c8_one_event_per_episode (cd : ℚ) (tr : String) (S : Status)
    (t0 v0 : ℚ) (rest : List (ℚ × ℚ)) (p0 : Pending) (db0 : DigMusicDB)
    (hS : S = Status.CHILL ∨ S = Status.HYPE) (htr : tr ≠ "—")
    (hstart : p0.pending_status ≠ some S ∨ p0.pending_track ≠ some tr ∨
      p0.pending_since = none) :
    countInserts (pendRun cd tr S (p0, db0) ((t0, v0) :: rest)).2 ≤ 1 ∧
    ((∃ a ∈ (t0, v0) :: rest, 15 ≤ a.1 - t0 ∧ should_save_event_cooldown db0 a.1 cd) →
      countInserts (pendRun cd tr S (p0, db0) ((t0, v0) :: rest)).2 = 1) := by
  have hfirst := pendUpdate_start cd tr t0 S v0 p0 db0 hS htr hstart
  have hrun := pendRun_unsaved cd tr S t0 hS htr rest db0
  constructor
  · simp only [pendRun, hfirst]
    simpa using hrun.1
  · rintro ⟨a, ha, hc1, hc2⟩
    rcases List.mem_cons.mp ha with ha | ha
    · rw [ha] at hc1
      simp only [sub_self] at hc1
      norm_num at hc1
    · simp only [pendRun, hfirst]
      simpa using hrun.2 ⟨a, ha, hc1, hc2⟩

/-- C8 counterexample: a contiguous CHILL episode with unchanged track
that crosses the 15-second sustained threshold persists no event at
all when every attempt is cooldown-rejected (a prior event 16 seconds
ago with a 60-second cooldown), contradicting "exactly one event per
contiguous sustained episode". -/
theorem c8_counterexample :
    countInserts (pendRun 60 "A - B" Status.CHILL
      (pendingInit, ⟨[⟨0, Status.CHILL, 50, "A", "B"⟩], []⟩)
      [(1, 50), (16, 50)]).2 = 0 ∧
    (15 : ℚ) ≤ 16 - 1 := by
  constructor
  · norm_num [pendRun, update_pending_and_maybe_save, should_save_event_cooldown,
      pendingInit, countInserts, (show ("A - B" : String) ≠ "—" from by decide)]
    simp
  · norm_num

/-- Witness for C8: a fresh episode over an empty store with samples
at times 0 and 20 inserts exactly one event. -/
theorem c8_witness :
    countInserts (pendRun 60 "A - B" Status.CHILL
      (pendingInit, ⟨[], []⟩) [(0, 50), (20, 50)]).2 = 1 := by
  refine (c8_one_event_per_episode 60 "A - B" Status.CHILL 0 50 [(20, 50)]
    pendingInit ⟨[], []⟩ (Or.inl rfl) (by decide) (by simp [pendingInit])).2 ?_
  refine ⟨(20, 50), by simp, by norm_num, ?_⟩
  simp [should_save_event_cooldown]

/-- C9: when a pending episode has met the 15-second sustained
threshold but the cooldown check fails, nothing is inserted and the
pending state (including its start time and unsaved flag) is left
unchanged; on a later sample of the same episode, as soon as the
cooldown check passes the save happens and the episode is marked
saved. -/
theorem c9_cooldown_retry :
    (∀ (cd : ℚ) (tr : String) (now t0 v : ℚ) (S : Status) (db : DigMusicDB),
      (S = Status.CHILL ∨ S = Status.HYPE) → tr ≠ "—" →
      15 ≤ now - t0 →
      ¬ should_save_event_cooldown db now cd →
      update_pending_and_maybe_save cd tr now S v ⟨some S, some t0, some tr, false⟩ db
        = (⟨some S, some t0, some tr, false⟩, db, [])) ∧
    (∀ (cd : ℚ) (tr : String) (now t0 v : ℚ) (S : Status) (db : DigMusicDB),
      (S = Status.CHILL ∨ S = Status.HYPE) → tr ≠ "—" →
      15 ≤ now - t0 →
      should_save_event_cooldown db now cd →
      update_pending_and_maybe_save cd tr now S v ⟨some S, some t0, some tr, false⟩ db
        = (⟨some S, some t0, some tr, true⟩,
           insert_event db ⟨now, S, v, (split_track tr).1, (split_track tr).2⟩,
           [SessionEff.insertEvent
             ⟨now, S, v, (split_track tr).1, (split_track tr).2⟩])) := by
  constructor
  · intro cd tr now t0 v S db hS htr h15 hcd
    exact pendUpdate_blocked cd tr now S v t0 db hS htr h15 hcd
  · intro cd tr now t0 v S db hS htr h15 hcd
    exact pendUpdate_insert cd tr now S v t0 db hS htr h15 hcd

/-- Witness for C9: at time 30 with a prior event at time 0 and a
60-second cooldown the save is rejected and the episode stays
unsaved with its start time 10 unchanged; at time 70 the cooldown
passes and the event is inserted. -/
theorem c9_witness :
    update_pending_and_maybe_save 60 "A - B" 30 Status.HYPE 40
      ⟨some Status.HYPE, some 10, some "A - B", false⟩
      ⟨[⟨0, Status.CHILL, 50, "A", "B"⟩], []⟩
      = (⟨some Status.HYPE, some 10, some "A - B", false⟩,
         ⟨[⟨0, Status.CHILL, 50, "A", "B"⟩], []⟩, []) ∧
    update_pending_and_maybe_save 60 "A - B" 70 Status.HYPE 40
      ⟨some Status.HYPE, some 10, some "A - B", false⟩
      ⟨[⟨0, Status.CHILL, 50, "A", "B"⟩], []⟩
      = (⟨some Status.HYPE, some 10, some "A - B", true⟩,
         insert_event ⟨[⟨0, Status.CHILL, 50, "A", "B"⟩], []⟩
           ⟨70, Status.HYPE, 40, (split_track "A - B").1, (split_track "A - B").2⟩,
         [SessionEff.insertEvent
           ⟨70, Status.HYPE, 40, (split_track "A - B").1, (split_track "A - B").2⟩]) := by
  constructor
  · exact c9_cooldown_retry.1 60 "A - B" 30 10 40 Status.HYPE _
      (Or.inr rfl) (by decide) (by norm_num)
      (by norm_num [should_save_event_cooldown])
  · exact c9_cooldown_retry.2 60 "A - B" 70 10 40 Status.HYPE _
      (Or.inr rfl) (by decide) (by norm_num)
      (by norm_num [should_save_event_cooldown])

/-! ## C10: well-formedness of persisted events -/

theorem mean_bounds (l : List ℚ) (hne : ¬ l.isEmpty)
    (h : ∀ x ∈ l, 0 ≤ x ∧ x ≤ 100) :
    0 ≤ l.sum / (l.length : ℚ) ∧ l.sum / (l.length : ℚ) ≤ 100 := by
  have hlen : 0 < (l.length : ℚ) := by
    have : l ≠ [] := by simpa [List.isEmpty_iff] using hne
    have : 0 < l.length := List.length_pos.mpr this
    exact_mod_cast this
  constructor
  · apply div_nonneg _ (le_of_lt hlen)
    exact List.sum_nonneg (fun x hx => (h x hx).1)
  · rw [div_le_iff₀ hlen]
    have := List.sum_le_card_nsmul l 100 (fun x hx => (h x hx).2)
    simpa [nsmul_eq_mul, mul_comm] using this

theorem pnn50_result_bound (m : ℕ) (s : PNN50Calculator)
    (hinv : ∀ q, s.last_pnn50 = some q → 0 ≤ q ∧ q ≤ 100) :
    (∀ v, (pnn50_percent m s).1 = some v → 0 ≤ v ∧ v ≤ 100) ∧
    (∀ q, ((pnn50_percent m s).2).last_pnn50 = some q → 0 ≤ q ∧ q ≤ 100) := by
  unfold pnn50_percent
  split_ifs with h1 h2
  · exact ⟨fun v hv => by simp at hv, hinv⟩
  · exact ⟨hinv, hinv⟩
  · refine ⟨fun v hv => ?_, fun q hq => ?_⟩
    · simp only [Option.some_inj] at hv
      rw [← hv]
      unfold pnn50Value
      exact pnn50_clamp_bounds _
    · simp only [Option.some_inj] at hq
      rw [← hq]
      unfold pnn50Value
      exact pnn50_clamp_bounds _

theorem clfUpdate_parts (cfg : ClfConfig) (c : FixedBaselineClassifier)
    (p : ℚ) (hr : Option ℚ) :
    ((c.update cfg p hr).1).smooth = c.smooth.add p ∧
    (c.update cfg p hr).2.1 = (c.smooth.add p).mean := by
  unfold FixedBaselineClassifier.update
  rcases hb1 : c.baseline_pnn50 with _ | bp <;>
    rcases hb2 : c.baseline_hr with _ | bh
  · exact ⟨rfl, rfl⟩
  · exact ⟨rfl, rfl⟩
  · exact ⟨rfl, rfl⟩
  · rcases hm1 : (c.smooth.add p).mean with _ | smv <;>
      rcases hm2 : (clfHrSmooth c hr).mean with _ | hrv
    · exact ⟨rfl, rfl⟩
    · exact ⟨rfl, rfl⟩
    · exact ⟨rfl, rfl⟩
    · split_ifs
      · exact ⟨rfl, rfl⟩
      · exact ⟨rfl, rfl⟩

theorem smooth_add_bounds (r : RollingMean) (p : ℚ)
    (hbuf : ∀ x ∈ r.buf, 0 ≤ x ∧ x ≤ 100) (hp : 0 ≤ p ∧ p ≤ 100) :
    ∀ x ∈ (r.add p).buf, 0 ≤ x ∧ x ≤ 100 := by
  intro x hx
  unfold RollingMean.add at hx
  have := takeR_subset r.size (r.buf ++ [p]) x hx
  rcases List.mem_append.mp this with h | h
  · exact hbuf x h
  · rw [List.mem_singleton.mp h]
    exact hp

theorem mean_some_bounds (r : RollingMean)
    (hbuf : ∀ x ∈ r.buf, 0 ≤ x ∧ x ≤ 100) :
    ∀ v, r.mean = some v → 0 ≤ v ∧ v ≤ 100 := by
  intro v hv
  unfold RollingMean.mean at hv
  split_ifs at hv with he
  simp only [Option.some_inj] at hv
  exact hv ▸ mean_bounds r.buf he hbuf

theorem pendUpdate_event_facts (cd : ℚ) (tr : String) (now : ℚ) (st : Status)
    (v : ℚ) (p : Pending) (db : DigMusicDB) :
    ∀ e, SessionEff.insertEvent e ∈ (update_pending_and_maybe_save cd tr now st v p db).2.2 →
      e.status = st ∧ e.pnn50 = v ∧ (st = Status.CHILL ∨ st = Status.HYPE) := by
  intro e he
  unfold update_pending_and_maybe_save at he
  split_ifs at he with h1 h2 h3 h4 h5 h6
  all_goals try simp at he
  all_goals (subst he; exact ⟨rfl, rfl, h1⟩)

theorem session_step_inv (cd : ℚ) (s : MeasureSession) (i : SessionInput)
    (hinv : sessionInv s) :
    sessionInv (session_step cd s i).1 ∧
    (∀ e, SessionEff.insertEvent e ∈ (session_step cd s i).2.1 →
      (e.status = Status.CHILL ∨ e.status = Status.HYPE) ∧
      0 ≤ e.pnn50 ∧ e.pnn50 ≤ 100) := by
  obtain ⟨hlast, hbuf⟩ := hinv
  unfold session_step
  dsimp only
  by_cases hacc : (add_rr 30 600 s.calc_ i.rr_ms).1 = true
  case neg =>
    rw [if_pos (by simpa using hacc)]
    refine ⟨⟨?_, hbuf⟩, by simp⟩
    intro q hq
    rw [add_rr_last_pnn50] at hq
    exact hlast q hq
  case pos =>
    rw [if_neg (by simp [hacc])]
    have hlast1 : ∀ q, ((add_rr 30 600 s.calc_ i.rr_ms).2).last_pnn50 = some q →
        0 ≤ q ∧ q ≤ 100 := by
      intro q hq
      rw [add_rr_last_pnn50] at hq
      exact hlast q hq
    have hlast2 := (pnn50_result_bound 10 (add_rr 30 600 s.calc_ i.rr_ms).2 hlast1).2
    have hp2 := (pnn50_result_bound 10 (add_rr 30 600 s.calc_ i.rr_ms).2 hlast1).1
    cases hre : s.rest_end_epoch with
    | some re =>
      dsimp only
      by_cases hnow : i.now < re
      · rw [if_pos hnow]
        exact ⟨⟨hlast2, hbuf⟩, by simp⟩
      · rw [if_neg hnow]
        by_cases hpv : s.rest_p_values = []
        · rw [if_pos hpv]
          exact ⟨⟨hlast2, hbuf⟩, by simp⟩
        · rw [if_neg hpv]
          by_cases hhv : s.rest_hr_values = []
          · rw [if_pos hhv]
            exact ⟨⟨hlast2, hbuf⟩, by simp⟩
          · rw [if_neg hhv]
            refine ⟨⟨hlast2, ?_⟩, by simp⟩
            intro x hx
            simp [set_baseline] at hx
    | none =>
      dsimp only
      cases hp : (pnn50_percent 10 (add_rr 30 600 s.calc_ i.rr_ms).2).1 with
      | none => exact ⟨⟨hlast2, hbuf⟩, by simp⟩
      | some pv =>
        have hpvb : 0 ≤ pv ∧ pv ≤ 100 := hp2 pv hp
        have hparts := clfUpdate_parts sessionClfConfig s.clf pv
          (hr_bpm (add_rr 30 600 s.calc_ i.rr_ms).2)
        have haddb := smooth_add_bounds s.clf.smooth pv hbuf hpvb
        have hbuf2 : ∀ x ∈ ((s.clf.update sessionClfConfig pv
            (hr_bpm (add_rr 30 600 s.calc_ i.rr_ms).2)).1).smooth.buf,
            0 ≤ x ∧ x ≤ 100 := by
          rw [hparts.1]
          exact haddb
        have hval : 0 ≤ ((s.clf.update sessionClfConfig pv
              (hr_bpm (add_rr 30 600 s.calc_ i.rr_ms).2)).2.1).getD pv ∧
            ((s.clf.update sessionClfConfig pv
              (hr_bpm (add_rr 30 600 s.calc_ i.rr_ms).2)).2.1).getD pv ≤ 100 := by
          cases hu : (s.clf.update sessionClfConfig pv
              (hr_bpm (add_rr 30 600 s.calc_ i.rr_ms).2)).2.1 with
          | none => simpa using hpvb
          | some v =>
            rw [hparts.2] at hu
            simpa using mean_some_bounds (s.clf.smooth.add pv) haddb v hu
        refine ⟨⟨hlast2, hbuf2⟩, ?_⟩
        intro e he
        have hf := pendUpdate_event_facts cd i.track i.now _ _ s.pending s.db e he
        refine ⟨hf.1 ▸ hf.2.2, ?_⟩
        rw [hf.2.1]
        exact hval

theorem sessionRun_events (cd : ℚ) :
    ∀ (inputs : List SessionInput) (s : MeasureSession), sessionInv s →
      ∀ e, SessionEff.insertEvent e ∈ (sessionRun cd s inputs).2.1 →
        (e.status = Status.CHILL ∨ e.status = Status.HYPE) ∧
        0 ≤ e.pnn50 ∧ e.pnn50 ≤ 100 := by
  intro inputs
  induction inputs with
  | nil =>
    intro s _ e he
    simp [sessionRun] at he
  | cons i rest ih =>
    intro s hinv e he
    have hstep := session_step_inv cd s i hinv
    unfold sessionRun at he
    dsimp only at he
    cases herr : (session_step cd s i).2.2 with
    | some err =>
      rw [herr] at he
      exact hstep.2 e he
    | none =>
      rw [herr] at he
      dsimp only at he
      rcases List.mem_append.mp he with he | he
      · exact hstep.2 e he
      · exact ih (session_step cd s i).1 hstep.1 e he

/-- C10: every event a session run persists is well-formed — its
status is CHILL or HYPE (never NEUTRAL) and its stored metric value
lies within [0, 100] (it is the rolling mean of clamped pNN50 values,
or a single clamped pNN50 value). -/
theorem c10_event_wellformed (cd : ℚ) (db0 : DigMusicDB) (re0 : ℚ)
    (inputs : List SessionInput) :
    ∀ e, SessionEff.insertEvent e ∈ (sessionRun cd (sessionInit db0 re0) inputs).2.1 →
      (e.status = Status.CHILL ∨ e.status = Status.HYPE) ∧
      0 ≤ e.pnn50 ∧ e.pnn50 ≤ 100 :=
  sessionRun_events cd inputs (sessionInit db0 re0)
    ⟨fun q hq => by simp [sessionInit, pnn50Init] at hq,
     fun x hx => by simp [sessionInit, clfInit] at hx⟩

theorem sessionRun_nil (cd : ℚ) (s : MeasureSession) :
    sessionRun cd s [] = (s, [], none) := rfl

theorem sessionRun_cons_ok (cd : ℚ) (s s' : MeasureSession)
    (effs : List SessionEff) (i : SessionInput) (rest : List SessionInput)
    (h : session_step cd s i = (s', effs, none)) :
    sessionRun cd s (i :: rest)
      = ((sessionRun cd s' rest).1, effs ++ (sessionRun cd s' rest).2.1,
         (sessionRun cd s' rest).2.2) := by
  conv_lhs => unfold sessionRun
  dsimp only
  rw [h]

set_option maxHeartbeats 3000000 in
/-- Witness for C10: a concrete 21-sample session run (11 REST samples
building the pNN50 window, the baseline fix, and a sustained CHILL
episode) persists exactly the event at time 123 with status CHILL and
value 0, and the C10 theorem certifies its well-formedness. -/
theorem c10_witness :
    (Status.CHILL = Status.CHILL ∨ Status.CHILL = Status.HYPE) ∧
    (0 : ℚ) ≤ 0 ∧ (0 : ℚ) ≤ 100 := by
  have h1 : session_step 1000 (sessionInit ⟨[], []⟩ 100)
      ⟨1, 800, "tr"⟩
      = (⟨⟨[800], none⟩, ⟨⟨5, []⟩, ⟨5, []⟩, none, none, ⟨Status.NEUTRAL, Status.NEUTRAL, 0⟩⟩, (some 100), [], [75], none, ⟨none, none, none, false⟩, ⟨[], []⟩, "tr"⟩,
         [], none) := by
    norm_num [session_step, sessionInit, clfInit, pnn50Init, add_rr, hr_bpm, pnn50_percent, pnn50Value, diffsOf, takeR,
    FixedBaselineClassifier.update, clfHrSmooth, clfCandidate, RollingMean.add,
    RollingMean.mean, RollingMean.is_ready, stabilize_status, stabInit,
    set_baseline, sessionClfConfig, pendingInit, update_pending_and_maybe_save,
    should_save_event_cooldown, insert_event, save_baseline,
    (show ("tr" : String) ≠ "—" from by decide)] <;> simp
  have h2 : session_step 1000 ⟨⟨[800], none⟩, ⟨⟨5, []⟩, ⟨5, []⟩, none, none, ⟨Status.NEUTRAL, Status.NEUTRAL, 0⟩⟩, (some 100), [], [75], none, ⟨none, none, none, false⟩, ⟨[], []⟩, "tr"⟩
      ⟨2, 800, "tr"⟩
      = (⟨⟨[800, 800], none⟩, ⟨⟨5, []⟩, ⟨5, []⟩, none, none, ⟨Status.NEUTRAL, Status.NEUTRAL, 0⟩⟩, (some 100), [], [75, 75], none, ⟨none, none, none, false⟩, ⟨[], []⟩, "tr"⟩,
         [], none) := by
    norm_num [session_step, sessionInit, clfInit, pnn50Init, add_rr, hr_bpm, pnn50_percent, pnn50Value, diffsOf, takeR,
    FixedBaselineClassifier.update, clfHrSmooth, clfCandidate, RollingMean.add,
    RollingMean.mean, RollingMean.is_ready, stabilize_status, stabInit,
    set_baseline, sessionClfConfig, pendingInit, update_pending_and_maybe_save,
    should_save_event_cooldown, insert_event, save_baseline,
    (show ("tr" : String) ≠ "—" from by decide)] <;> simp
  have h3 : session_step 1000 ⟨⟨[800, 800], none⟩, ⟨⟨5, []⟩, ⟨5, []⟩, none, none, ⟨Status.NEUTRAL, Status.NEUTRAL, 0⟩⟩, (some 100), [], [75, 75], none, ⟨none, none, none, false⟩, ⟨[], []⟩, "tr"⟩
      ⟨3, 800, "tr"⟩
      = (⟨⟨[800, 800, 800], none⟩, ⟨⟨5, []⟩, ⟨5, []⟩, none, none, ⟨Status.NEUTRAL, Status.NEUTRAL, 0⟩⟩, (some 100), [], [75, 75, 75], none, ⟨none, none, none, false⟩, ⟨[], []⟩, "tr"⟩,
         [], none) := by
    norm_num [session_step, sessionInit, clfInit, pnn50Init, add_rr, hr_bpm, pnn50_percent, pnn50Value, diffsOf, takeR,
    FixedBaselineClassifier.update, clfHrSmooth, clfCandidate, RollingMean.add,
    RollingMean.mean, RollingMean.is_ready, stabilize_status, stabInit,
    set_baseline, sessionClfConfig, pendingInit, update_pending_and_maybe_save,
    should_save_event_cooldown, insert_event, save_baseline,
    (show ("tr" : String) ≠ "—" from by decide)] <;> simp
  have h4 : session_step 1000 ⟨⟨[800, 800, 800], none⟩, ⟨⟨5, []⟩, ⟨5, []⟩, none, none, ⟨Status.NEUTRAL, Status.NEUTRAL, 0⟩⟩, (some 100), [], [75, 75, 75], none, ⟨none, none, none, false⟩, ⟨[], []⟩, "tr"⟩
      ⟨4, 800, "tr"⟩
      = (⟨⟨[800, 800, 800, 800], none⟩, ⟨⟨5, []⟩, ⟨5, []⟩, none, none, ⟨Status.NEUTRAL, Status.NEUTRAL, 0⟩⟩, (some 100), [], [75, 75, 75, 75], none, ⟨none, none, none, false⟩, ⟨[], []⟩, "tr"⟩,
         [], none) := by
    norm_num [session_step, sessionInit, clfInit, pnn50Init, add_rr, hr_bpm, pnn50_percent, pnn50Value, diffsOf, takeR,
    FixedBaselineClassifier.update, clfHrSmooth, clfCandidate, RollingMean.add,
    RollingMean.mean, RollingMean.is_ready, stabilize_status, stabInit,
    set_baseline, sessionClfConfig, pendingInit, update_pending_and_maybe_save,
    should_save_event_cooldown, insert_event, save_baseline,
    (show ("tr" : String) ≠ "—" from by decide)] <;> simp
  have h5 : session_step 1000 ⟨⟨[800, 800, 800, 800], none⟩, ⟨⟨5, []⟩, ⟨5, []⟩, none, none, ⟨Status.NEUTRAL, Status.NEUTRAL, 0⟩⟩, (some 100), [], [75, 75, 75, 75], none, ⟨none, none, none, false⟩, ⟨[], []⟩, "tr"⟩
      ⟨5, 800, "tr"⟩
      = (⟨⟨[800, 800, 800, 800, 800], none⟩, ⟨⟨5, []⟩, ⟨5, []⟩, none, none, ⟨Status.NEUTRAL, Status.NEUTRAL, 0⟩⟩, (some 100), [], [75, 75, 75, 75, 75], none, ⟨none, none, none, false⟩, ⟨[], []⟩, "tr"⟩,
         [], none) := by
    norm_num [session_step, sessionInit, clfInit, pnn50Init, add_rr, hr_bpm, pnn50_percent, pnn50Value, diffsOf, takeR,
    FixedBaselineClassifier.update, clfHrSmooth, clfCandidate, RollingMean.add,
    RollingMean.mean, RollingMean.is_ready, stabilize_status, stabInit,
    set_baseline, sessionClfConfig, pendingInit, update_pending_and_maybe_save,
    should_save_event_cooldown, insert_event, save_baseline,
    (show ("tr" : String) ≠ "—" from by decide)] <;> simp
  have h6 : session_step 1000 ⟨⟨[800, 800, 800, 800, 800], none⟩, ⟨⟨5, []⟩, ⟨5, []⟩, none, none, ⟨Status.NEUTRAL, Status.NEUTRAL, 0⟩⟩, (some 100), [], [75, 75, 75, 75, 75], none, ⟨none, none, none, false⟩, ⟨[], []⟩, "tr"⟩
      ⟨6, 800, "tr"⟩
      = (⟨⟨[800, 800, 800, 800, 800, 800], none⟩, ⟨⟨5, []⟩, ⟨5, []⟩, none, none, ⟨Status.NEUTRAL, Status.NEUTRAL, 0⟩⟩, (some 100), [], [75, 75, 75, 75, 75, 75], none, ⟨none, none, none, false⟩, ⟨[], []⟩, "tr"⟩,
         [], none) := by
    norm_num [session_step, sessionInit, clfInit, pnn50Init, add_rr, hr_bpm, pnn50_percent, pnn50Value, diffsOf, takeR,
    FixedBaselineClassifier.update, clfHrSmooth, clfCandidate, RollingMean.add,
    RollingMean.mean, RollingMean.is_ready, stabilize_status, stabInit,
    set_baseline, sessionClfConfig, pendingInit, update_pending_and_maybe_save,
    should_save_event_cooldown, insert_event, save_baseline,
    (show ("tr" : String) ≠ "—" from by decide)] <;> simp
  have h7 : session_step 1000 ⟨⟨[800, 800, 800, 800, 800, 800], none⟩, ⟨⟨5, []⟩, ⟨5, []⟩, none, none, ⟨Status.NEUTRAL, Status.NEUTRAL, 0⟩⟩, (some 100), [], [75, 75, 75, 75, 75, 75], none, ⟨none, none, none, false⟩, ⟨[], []⟩, "tr"⟩
      ⟨7, 800, "tr"⟩
      = (⟨⟨[800, 800, 800, 800, 800, 800, 800], none⟩, ⟨⟨5, []⟩, ⟨5, []⟩, none, none, ⟨Status.NEUTRAL, Status.NEUTRAL, 0⟩⟩, (some 100), [], [75, 75, 75, 75, 75, 75, 75], none, ⟨none, none, none, false⟩, ⟨[], []⟩, "tr"⟩,
         [], none) := by
    norm_num [session_step, sessionInit, clfInit, pnn50Init, add_rr, hr_bpm, pnn50_percent, pnn50Value, diffsOf, takeR,
    FixedBaselineClassifier.update, clfHrSmooth, clfCandidate, RollingMean.add,
    RollingMean.mean, RollingMean.is_ready, stabilize_status, stabInit,
    set_baseline, sessionClfConfig, pendingInit, update_pending_and_maybe_save,
    should_save_event_cooldown, insert_event, save_baseline,
    (show ("tr" : String) ≠ "—" from by decide)] <;> simp
  have h8 : session_step 1000 ⟨⟨[800, 800, 800, 800, 800, 800, 800], none⟩, ⟨⟨5, []⟩, ⟨5, []⟩, none, none, ⟨Status.NEUTRAL, Status.NEUTRAL, 0⟩⟩, (some 100), [], [75, 75, 75, 75, 75, 75, 75], none, ⟨none, none, none, false⟩, ⟨[], []⟩, "tr"⟩
      ⟨8, 800, "tr"⟩
      = (⟨⟨[800, 800, 800, 800, 800, 800, 800, 800], none⟩, ⟨⟨5, []⟩, ⟨5, []⟩, none, none, ⟨Status.NEUTRAL, Status.NEUTRAL, 0⟩⟩, (some 100), [], [75, 75, 75, 75, 75, 75, 75, 75], none, ⟨none, none, none, false⟩, ⟨[], []⟩, "tr"⟩,
         [], none) := by
    norm_num [session_step, sessionInit, clfInit, pnn50Init, add_rr, hr_bpm, pnn50_percent, pnn50Value, diffsOf, takeR,
    FixedBaselineClassifier.update, clfHrSmooth, clfCandidate, RollingMean.add,
    RollingMean.mean, RollingMean.is_ready, stabilize_status, stabInit,
    set_baseline, sessionClfConfig, pendingInit, update_pending_and_maybe_save,
    should_save_event_cooldown, insert_event, save_baseline,
    (show ("tr" : String) ≠ "—" from by decide)] <;> simp
  have h9 : session_step 1000 ⟨⟨[800, 800, 800, 800, 800, 800, 800, 800], none⟩, ⟨⟨5, []⟩, ⟨5, []⟩, none, none, ⟨Status.NEUTRAL, Status.NEUTRAL, 0⟩⟩, (some 100), [], [75, 75, 75, 75, 75, 75, 75, 75], none, ⟨none, none, none, false⟩, ⟨[], []⟩, "tr"⟩
      ⟨9, 800, "tr"⟩
      = (⟨⟨[800, 800, 800, 800, 800, 800, 800, 800, 800], none⟩, ⟨⟨5, []⟩, ⟨5, []⟩, none, none, ⟨Status.NEUTRAL, Status.NEUTRAL, 0⟩⟩, (some 100), [], [75, 75, 75, 75, 75, 75, 75, 75, 75], none, ⟨none, none, none, false⟩, ⟨[], []⟩, "tr"⟩,
         [], none) := by
    norm_num [session_step, sessionInit, clfInit, pnn50Init, add_rr, hr_bpm, pnn50_percent, pnn50Value, diffsOf, takeR,
    FixedBaselineClassifier.update, clfHrSmooth, clfCandidate, RollingMean.add,
    RollingMean.mean, RollingMean.is_ready, stabilize_status, stabInit,
    set_baseline, sessionClfConfig, pendingInit, update_pending_and_maybe_save,
    should_save_event_cooldown, insert_event, save_baseline,
    (show ("tr" : String) ≠ "—" from by decide)] <;> simp
  have h10 : session_step 1000 ⟨⟨[800, 800, 800, 800, 800, 800, 800, 800, 800], none⟩, ⟨⟨5, []⟩, ⟨5, []⟩, none, none, ⟨Status.NEUTRAL, Status.NEUTRAL, 0⟩⟩, (some 100), [], [75, 75, 75, 75, 75, 75, 75, 75, 75], none, ⟨none, none, none, false⟩, ⟨[], []⟩, "tr"⟩
      ⟨10, 800, "tr"⟩
      = (⟨⟨[800, 800, 800, 800, 800, 800, 800, 800, 800, 800], none⟩, ⟨⟨5, []⟩, ⟨5, []⟩, none, none, ⟨Status.NEUTRAL, Status.NEUTRAL, 0⟩⟩, (some 100), [], [75, 75, 75, 75, 75, 75, 75, 75, 75, 75], none, ⟨none, none, none, false⟩, ⟨[], []⟩, "tr"⟩,
         [], none) := by
    norm_num [session_step, sessionInit, clfInit, pnn50Init, add_rr, hr_bpm, pnn50_percent, pnn50Value, diffsOf, takeR,
    FixedBaselineClassifier.update, clfHrSmooth, clfCandidate, RollingMean.add,
    RollingMean.mean, RollingMean.is_ready, stabilize_status, stabInit,
    set_baseline, sessionClfConfig, pendingInit, update_pending_and_maybe_save,
    should_save_event_cooldown, insert_event, save_baseline,
    (show ("tr" : String) ≠ "—" from by decide)] <;> simp
  have h11 : session_step 1000 ⟨⟨[800, 800, 800, 800, 800, 800, 800, 800, 800, 800], none⟩, ⟨⟨5, []⟩, ⟨5, []⟩, none, none, ⟨Status.NEUTRAL, Status.NEUTRAL, 0⟩⟩, (some 100), [], [75, 75, 75, 75, 75, 75, 75, 75, 75, 75], none, ⟨none, none, none, false⟩, ⟨[], []⟩, "tr"⟩
      ⟨11, 800, "tr"⟩
      = (⟨⟨[800, 800, 800, 800, 800, 800, 800, 800, 800, 800, 800], (some 0)⟩, ⟨⟨5, []⟩, ⟨5, []⟩, none, none, ⟨Status.NEUTRAL, Status.NEUTRAL, 0⟩⟩, (some 100), [0], [75, 75, 75, 75, 75, 75, 75, 75, 75, 75, 75], none, ⟨none, none, none, false⟩, ⟨[], []⟩, "tr"⟩,
         [], none) := by
    norm_num [session_step, sessionInit, clfInit, pnn50Init, add_rr, hr_bpm, pnn50_percent, pnn50Value, diffsOf, takeR,
    FixedBaselineClassifier.update, clfHrSmooth, clfCandidate, RollingMean.add,
    RollingMean.mean, RollingMean.is_ready, stabilize_status, stabInit,
    set_baseline, sessionClfConfig, pendingInit, update_pending_and_maybe_save,
    should_save_event_cooldown, insert_event, save_baseline,
    (show ("tr" : String) ≠ "—" from by decide)] <;> simp
  have h12 : session_step 1000 ⟨⟨[800, 800, 800, 800, 800, 800, 800, 800, 800, 800, 800], (some 0)⟩, ⟨⟨5, []⟩, ⟨5, []⟩, none, none, ⟨Status.NEUTRAL, Status.NEUTRAL, 0⟩⟩, (some 100), [0], [75, 75, 75, 75, 75, 75, 75, 75, 75, 75, 75], none, ⟨none, none, none, false⟩, ⟨[], []⟩, "tr"⟩
      ⟨100, 800, "tr"⟩
      = (⟨⟨[800, 800, 800, 800, 800, 800, 800, 800, 800, 800, 800, 800], (some 0)⟩, ⟨⟨5, []⟩, ⟨5, []⟩, (some 0), (some 75), ⟨Status.NEUTRAL, Status.NEUTRAL, 0⟩⟩, none, [0], [75, 75, 75, 75, 75, 75, 75, 75, 75, 75, 75], (some 0), ⟨none, none, none, false⟩, ⟨[], [0]⟩, "tr"⟩,
         [SessionEff.saveBaseline 0], none) := by
    norm_num [session_step, sessionInit, clfInit, pnn50Init, add_rr, hr_bpm, pnn50_percent, pnn50Value, diffsOf, takeR,
    FixedBaselineClassifier.update, clfHrSmooth, clfCandidate, RollingMean.add,
    RollingMean.mean, RollingMean.is_ready, stabilize_status, stabInit,
    set_baseline, sessionClfConfig, pendingInit, update_pending_and_maybe_save,
    should_save_event_cooldown, insert_event, save_baseline,
    (show ("tr" : String) ≠ "—" from by decide)] <;> simp
  have h13 : session_step 1000 ⟨⟨[800, 800, 800, 800, 800, 800, 800, 800, 800, 800, 800, 800], (some 0)⟩, ⟨⟨5, []⟩, ⟨5, []⟩, (some 0), (some 75), ⟨Status.NEUTRAL, Status.NEUTRAL, 0⟩⟩, none, [0], [75, 75, 75, 75, 75, 75, 75, 75, 75, 75, 75], (some 0), ⟨none, none, none, false⟩, ⟨[], [0]⟩, "tr"⟩
      ⟨101, 800, "tr"⟩
      = (⟨⟨[800, 800, 800, 800, 800, 800, 800, 800, 800, 800, 800, 800, 800], (some 0)⟩, ⟨⟨5, [0]⟩, ⟨5, [75]⟩, (some 0), (some 75), ⟨Status.NEUTRAL, Status.NEUTRAL, 0⟩⟩, none, [0], [75, 75, 75, 75, 75, 75, 75, 75, 75, 75, 75], (some 0), ⟨none, none, none, false⟩, ⟨[], [0]⟩, "tr"⟩,
         [], none) := by
    norm_num [session_step, sessionInit, clfInit, pnn50Init, add_rr, hr_bpm, pnn50_percent, pnn50Value, diffsOf, takeR,
    FixedBaselineClassifier.update, clfHrSmooth, clfCandidate, RollingMean.add,
    RollingMean.mean, RollingMean.is_ready, stabilize_status, stabInit,
    set_baseline, sessionClfConfig, pendingInit, update_pending_and_maybe_save,
    should_save_event_cooldown, insert_event, save_baseline,
    (show ("tr" : String) ≠ "—" from by decide)] <;> simp
  have h14 : session_step 1000 ⟨⟨[800, 800, 800, 800, 800, 800, 800, 800, 800, 800, 800, 800, 800], (some 0)⟩, ⟨⟨5, [0]⟩, ⟨5, [75]⟩, (some 0), (some 75), ⟨Status.NEUTRAL, Status.NEUTRAL, 0⟩⟩, none, [0], [75, 75, 75, 75, 75, 75, 75, 75, 75, 75, 75], (some 0), ⟨none, none, none, false⟩, ⟨[], [0]⟩, "tr"⟩
      ⟨102, 800, "tr"⟩
      = (⟨⟨[800, 800, 800, 800, 800, 800, 800, 800, 800, 800, 800, 800, 800, 800], (some 0)⟩, ⟨⟨5, [0, 0]⟩, ⟨5, [75, 75]⟩, (some 0), (some 75), ⟨Status.NEUTRAL, Status.NEUTRAL, 0⟩⟩, none, [0], [75, 75, 75, 75, 75, 75, 75, 75, 75, 75, 75], (some 0), ⟨none, none, none, false⟩, ⟨[], [0]⟩, "tr"⟩,
         [], none) := by
    norm_num [session_step, sessionInit, clfInit, pnn50Init, add_rr, hr_bpm, pnn50_percent, pnn50Value, diffsOf, takeR,
    FixedBaselineClassifier.update, clfHrSmooth, clfCandidate, RollingMean.add,
    RollingMean.mean, RollingMean.is_ready, stabilize_status, stabInit,
    set_baseline, sessionClfConfig, pendingInit, update_pending_and_maybe_save,
    should_save_event_cooldown, insert_event, save_baseline,
    (show ("tr" : String) ≠ "—" from by decide)] <;> simp
  have h15 : session_step 1000 ⟨⟨[800, 800, 800, 800, 800, 800, 800, 800, 800, 800, 800, 800, 800, 800], (some 0)⟩, ⟨⟨5, [0, 0]⟩, ⟨5, [75, 75]⟩, (some 0), (some 75), ⟨Status.NEUTRAL, Status.NEUTRAL, 0⟩⟩, none, [0], [75, 75, 75, 75, 75, 75, 75, 75, 75, 75, 75], (some 0), ⟨none, none, none, false⟩, ⟨[], [0]⟩, "tr"⟩
      ⟨103, 800, "tr"⟩
      = (⟨⟨[800, 800, 800, 800, 800, 800, 800, 800, 800, 800, 800, 800, 800, 800, 800], (some 0)⟩, ⟨⟨5, [0, 0, 0]⟩, ⟨5, [75, 75, 75]⟩, (some 0), (some 75), ⟨Status.NEUTRAL, Status.NEUTRAL, 0⟩⟩, none, [0], [75, 75, 75, 75, 75, 75, 75, 75, 75, 75, 75], (some 0), ⟨none, none, none, false⟩, ⟨[], [0]⟩, "tr"⟩,
         [], none) := by
    norm_num [session_step, sessionInit, clfInit, pnn50Init, add_rr, hr_bpm, pnn50_percent, pnn50Value, diffsOf, takeR,
    FixedBaselineClassifier.update, clfHrSmooth, clfCandidate, RollingMean.add,
    RollingMean.mean, RollingMean.is_ready, stabilize_status, stabInit,
    set_baseline, sessionClfConfig, pendingInit, update_pending_and_maybe_save,
    should_save_event_cooldown, insert_event, save_baseline,
    (show ("tr" : String) ≠ "—" from by decide)] <;> simp
  have h16 : session_step 1000 ⟨⟨[800, 800, 800, 800, 800, 800, 800, 800, 800, 800, 800, 800, 800, 800, 800], (some 0)⟩, ⟨⟨5, [0, 0, 0]⟩, ⟨5, [75, 75, 75]⟩, (some 0), (some 75), ⟨Status.NEUTRAL, Status.NEUTRAL, 0⟩⟩, none, [0], [75, 75, 75, 75, 75, 75, 75, 75, 75, 75, 75], (some 0), ⟨none, none, none, false⟩, ⟨[], [0]⟩, "tr"⟩
      ⟨104, 800, "tr"⟩
      = (⟨⟨[800, 800, 800, 800, 800, 800, 800, 800, 800, 800, 800, 800, 800, 800, 800, 800], (some 0)⟩, ⟨⟨5, [0, 0, 0, 0]⟩, ⟨5, [75, 75, 75, 75]⟩, (some 0), (some 75), ⟨Status.NEUTRAL, Status.NEUTRAL, 0⟩⟩, none, [0], [75, 75, 75, 75, 75, 75, 75, 75, 75, 75, 75], (some 0), ⟨none, none, none, false⟩, ⟨[], [0]⟩, "tr"⟩,
         [], none) := by
    norm_num [session_step, sessionInit, clfInit, pnn50Init, add_rr, hr_bpm, pnn50_percent, pnn50Value, diffsOf, takeR,
    FixedBaselineClassifier.update, clfHrSmooth, clfCandidate, RollingMean.add,
    RollingMean.mean, RollingMean.is_ready, stabilize_status, stabInit,
    set_baseline, sessionClfConfig, pendingInit, update_pending_and_maybe_save,
    should_save_event_cooldown, insert_event, save_baseline,
    (show ("tr" : String) ≠ "—" from by decide)] <;> simp
  have h17 : session_step 1000 ⟨⟨[800, 800, 800, 800, 800, 800, 800, 800, 800, 800, 800, 800, 800, 800, 800, 800], (some 0)⟩, ⟨⟨5, [0, 0, 0, 0]⟩, ⟨5, [75, 75, 75, 75]⟩, (some 0), (some 75), ⟨Status.NEUTRAL, Status.NEUTRAL, 0⟩⟩, none, [0], [75, 75, 75, 75, 75, 75, 75, 75, 75, 75, 75], (some 0), ⟨none, none, none, false⟩, ⟨[], [0]⟩, "tr"⟩
      ⟨105, 800, "tr"⟩
      = (⟨⟨[800, 800, 800, 800, 800, 800, 800, 800, 800, 800, 800, 800, 800, 800, 800, 800, 800], (some 0)⟩, ⟨⟨5, [0, 0, 0, 0, 0]⟩, ⟨5, [75, 75, 75, 75, 75]⟩, (some 0), (some 75), ⟨Status.NEUTRAL, Status.CHILL, 1⟩⟩, none, [0], [75, 75, 75, 75, 75, 75, 75, 75, 75, 75, 75], (some 0), ⟨none, none, none, false⟩, ⟨[], [0]⟩, "tr"⟩,
         [], none) := by
    norm_num [session_step, sessionInit, clfInit, pnn50Init, add_rr, hr_bpm, pnn50_percent, pnn50Value, diffsOf, takeR,
    FixedBaselineClassifier.update, clfHrSmooth, clfCandidate, RollingMean.add,
    RollingMean.mean, RollingMean.is_ready, stabilize_status, stabInit,
    set_baseline, sessionClfConfig, pendingInit, update_pending_and_maybe_save,
    should_save_event_cooldown, insert_event, save_baseline,
    (show ("tr" : String) ≠ "—" from by decide)] <;> simp
  have h18 : session_step 1000 ⟨⟨[800, 800, 800, 800, 800, 800, 800, 800, 800, 800, 800, 800, 800, 800, 800, 800, 800], (some 0)⟩, ⟨⟨5, [0, 0, 0, 0, 0]⟩, ⟨5, [75, 75, 75, 75, 75]⟩, (some 0), (some 75), ⟨Status.NEUTRAL, Status.CHILL, 1⟩⟩, none, [0], [75, 75, 75, 75, 75, 75, 75, 75, 75, 75, 75], (some 0), ⟨none, none, none, false⟩, ⟨[], [0]⟩, "tr"⟩
      ⟨106, 800, "tr"⟩
      = (⟨⟨[800, 800, 800, 800, 800, 800, 800, 800, 800, 800, 800, 800, 800, 800, 800, 800, 800, 800], (some 0)⟩, ⟨⟨5, [0, 0, 0, 0, 0]⟩, ⟨5, [75, 75, 75, 75, 75]⟩, (some 0), (some 75), ⟨Status.NEUTRAL, Status.CHILL, 2⟩⟩, none, [0], [75, 75, 75, 75, 75, 75, 75, 75, 75, 75, 75], (some 0), ⟨none, none, none, false⟩, ⟨[], [0]⟩, "tr"⟩,
         [], none) := by
    norm_num [session_step, sessionInit, clfInit, pnn50Init, add_rr, hr_bpm, pnn50_percent, pnn50Value, diffsOf, takeR,
    FixedBaselineClassifier.update, clfHrSmooth, clfCandidate, RollingMean.add,
    RollingMean.mean, RollingMean.is_ready, stabilize_status, stabInit,
    set_baseline, sessionClfConfig, pendingInit, update_pending_and_maybe_save,
    should_save_event_cooldown, insert_event, save_baseline,
    (show ("tr" : String) ≠ "—" from by decide)] <;> simp
  have h19 : session_step 1000 ⟨⟨[800, 800, 800, 800, 800, 800, 800, 800, 800, 800, 800, 800, 800, 800, 800, 800, 800, 800], (some 0)⟩, ⟨⟨5, [0, 0, 0, 0, 0]⟩, ⟨5, [75, 75, 75, 75, 75]⟩, (some 0), (some 75), ⟨Status.NEUTRAL, Status.CHILL, 2⟩⟩, none, [0], [75, 75, 75, 75, 75, 75, 75, 75, 75, 75, 75], (some 0), ⟨none, none, none, false⟩, ⟨[], [0]⟩, "tr"⟩
      ⟨107, 800, "tr"⟩
      = (⟨⟨[800, 800, 800, 800, 800, 800, 800, 800, 800, 800, 800, 800, 800, 800, 800, 800, 800, 800, 800], (some 0)⟩, ⟨⟨5, [0, 0, 0, 0, 0]⟩, ⟨5, [75, 75, 75, 75, 75]⟩, (some 0), (some 75), ⟨Status.NEUTRAL, Status.CHILL, 3⟩⟩, none, [0], [75, 75, 75, 75, 75, 75, 75, 75, 75, 75, 75], (some 0), ⟨none, none, none, false⟩, ⟨[], [0]⟩, "tr"⟩,
         [], none) := by
    norm_num [session_step, sessionInit, clfInit, pnn50Init, add_rr, hr_bpm, pnn50_percent, pnn50Value, diffsOf, takeR,
    FixedBaselineClassifier.update, clfHrSmooth, clfCandidate, RollingMean.add,
    RollingMean.mean, RollingMean.is_ready, stabilize_status, stabInit,
    set_baseline, sessionClfConfig, pendingInit, update_pending_and_maybe_save,
    should_save_event_cooldown, insert_event, save_baseline,
    (show ("tr" : String) ≠ "—" from by decide)] <;> simp
  have h20 : session_step 1000 ⟨⟨[800, 800, 800, 800, 800, 800, 800, 800, 800, 800, 800, 800, 800, 800, 800, 800, 800, 800, 800], (some 0)⟩, ⟨⟨5, [0, 0, 0, 0, 0]⟩, ⟨5, [75, 75, 75, 75, 75]⟩, (some 0), (some 75), ⟨Status.NEUTRAL, Status.CHILL, 3⟩⟩, none, [0], [75, 75, 75, 75, 75, 75, 75, 75, 75, 75, 75], (some 0), ⟨none, none, none, false⟩, ⟨[], [0]⟩, "tr"⟩
      ⟨108, 800, "tr"⟩
      = (⟨⟨[800, 800, 800, 800, 800, 800, 800, 800, 800, 800, 800, 800, 800, 800, 800, 800, 800, 800, 800, 800], (some 0)⟩, ⟨⟨5, [0, 0, 0, 0, 0]⟩, ⟨5, [75, 75, 75, 75, 75]⟩, (some 0), (some 75), ⟨Status.CHILL, Status.CHILL, 0⟩⟩, none, [0], [75, 75, 75, 75, 75, 75, 75, 75, 75, 75, 75], (some 0), ⟨(some Status.CHILL), (some 108), (some "tr"), false⟩, ⟨[], [0]⟩, "tr"⟩,
         [], none) := by
    norm_num [session_step, sessionInit, clfInit, pnn50Init, add_rr, hr_bpm, pnn50_percent, pnn50Value, diffsOf, takeR,
    FixedBaselineClassifier.update, clfHrSmooth, clfCandidate, RollingMean.add,
    RollingMean.mean, RollingMean.is_ready, stabilize_status, stabInit,
    set_baseline, sessionClfConfig, pendingInit, update_pending_and_maybe_save,
    should_save_event_cooldown, insert_event, save_baseline,
    (show ("tr" : String) ≠ "—" from by decide)] <;> simp
  have h21 : session_step 1000 ⟨⟨[800, 800, 800, 800, 800, 800, 800, 800, 800, 800, 800, 800, 800, 800, 800, 800, 800, 800, 800, 800], (some 0)⟩, ⟨⟨5, [0, 0, 0, 0, 0]⟩, ⟨5, [75, 75, 75, 75, 75]⟩, (some 0), (some 75), ⟨Status.CHILL, Status.CHILL, 0⟩⟩, none, [0], [75, 75, 75, 75, 75, 75, 75, 75, 75, 75, 75], (some 0), ⟨(some Status.CHILL), (some 108), (some "tr"), false⟩, ⟨[], [0]⟩, "tr"⟩
      ⟨123, 800, "tr"⟩
      = (⟨⟨[800, 800, 800, 800, 800, 800, 800, 800, 800, 800, 800, 800, 800, 800, 800, 800, 800, 800, 800, 800, 800], (some 0)⟩, ⟨⟨5, [0, 0, 0, 0, 0]⟩, ⟨5, [75, 75, 75, 75, 75]⟩, (some 0), (some 75), ⟨Status.CHILL, Status.CHILL, 0⟩⟩, none, [0], [75, 75, 75, 75, 75, 75, 75, 75, 75, 75, 75], (some 0), ⟨(some Status.CHILL), (some 108), (some "tr"), true⟩, ⟨[⟨123, Status.CHILL, 0, (split_track "tr").1, (split_track "tr").2⟩], [0]⟩, "tr"⟩,
         [SessionEff.insertEvent ⟨123, Status.CHILL, 0, (split_track "tr").1, (split_track "tr").2⟩], none) := by
    norm_num [session_step, sessionInit, clfInit, pnn50Init, add_rr, hr_bpm, pnn50_percent, pnn50Value, diffsOf, takeR,
    FixedBaselineClassifier.update, clfHrSmooth, clfCandidate, RollingMean.add,
    RollingMean.mean, RollingMean.is_ready, stabilize_status, stabInit,
    set_baseline, sessionClfConfig, pendingInit, update_pending_and_maybe_save,
    should_save_event_cooldown, insert_event, save_baseline,
    (show ("tr" : String) ≠ "—" from by decide)] <;> simp
  have hmem : SessionEff.insertEvent
      ⟨123, Status.CHILL, 0, (split_track "tr").1, (split_track "tr").2⟩
      ∈ (sessionRun 1000 (sessionInit ⟨[], []⟩ 100)
      [⟨1, 800, "tr"⟩, ⟨2, 800, "tr"⟩, ⟨3, 800, "tr"⟩, ⟨4, 800, "tr"⟩,
       ⟨5, 800, "tr"⟩, ⟨6, 800, "tr"⟩, ⟨7, 800, "tr"⟩, ⟨8, 800, "tr"⟩,
       ⟨9, 800, "tr"⟩, ⟨10, 800, "tr"⟩, ⟨11, 800, "tr"⟩, ⟨100, 800, "tr"⟩,
       ⟨101, 800, "tr"⟩, ⟨102, 800, "tr"⟩, ⟨103, 800, "tr"⟩, ⟨104, 800, "tr"⟩,
       ⟨105, 800, "tr"⟩, ⟨106, 800, "tr"⟩, ⟨107, 800, "tr"⟩, ⟨108, 800, "tr"⟩,
       ⟨123, 800, "tr"⟩]).2.1 := by
    rw [sessionRun_cons_ok _ _ _ _ _ _ h1]
    dsimp only [List.nil_append]
    rw [sessionRun_cons_ok _ _ _ _ _ _ h2]
    dsimp only [List.nil_append]
    rw [sessionRun_cons_ok _ _ _ _ _ _ h3]
    dsimp only [List.nil_append]
    rw [sessionRun_cons_ok _ _ _ _ _ _ h4]
    dsimp only [List.nil_append]
    rw [sessionRun_cons_ok _ _ _ _ _ _ h5]
    dsimp only [List.nil_append]
    rw [sessionRun_cons_ok _ _ _ _ _ _ h6]
    dsimp only [List.nil_append]
    rw [sessionRun_cons_ok _ _ _ _ _ _ h7]
    dsimp only [List.nil_append]
    rw [sessionRun_cons_ok _ _ _ _ _ _ h8]
    dsimp only [List.nil_append]
    rw [sessionRun_cons_ok _ _ _ _ _ _ h9]
    dsimp only [List.nil_append]
    rw [sessionRun_cons_ok _ _ _ _ _ _ h10]
    dsimp only [List.nil_append]
    rw [sessionRun_cons_ok _ _ _ _ _ _ h11]
    dsimp only [List.nil_append]
    rw [sessionRun_cons_ok _ _ _ _ _ _ h12]
    dsimp only [List.nil_append]
    rw [sessionRun_cons_ok _ _ _ _ _ _ h13]
    dsimp only [List.nil_append]
    rw [sessionRun_cons_ok _ _ _ _ _ _ h14]
    dsimp only [List.nil_append]
    rw [sessionRun_cons_ok _ _ _ _ _ _ h15]
    dsimp only [List.nil_append]
    rw [sessionRun_cons_ok _ _ _ _ _ _ h16]
    dsimp only [List.nil_append]
    rw [sessionRun_cons_ok _ _ _ _ _ _ h17]
    dsimp only [List.nil_append]
    rw [sessionRun_cons_ok _ _ _ _ _ _ h18]
    dsimp only [List.nil_append]
    rw [sessionRun_cons_ok _ _ _ _ _ _ h19]
    dsimp only [List.nil_append]
    rw [sessionRun_cons_ok _ _ _ _ _ _ h20]
    dsimp only [List.nil_append]
    rw [sessionRun_cons_ok _ _ _ _ _ _ h21]
    simp [sessionRun]
  exact c10_event_wellformed 1000 ⟨[], []⟩ 100
    [⟨1, 800, "tr"⟩, ⟨2, 800, "tr"⟩, ⟨3, 800, "tr"⟩, ⟨4, 800, "tr"⟩,
       ⟨5, 800, "tr"⟩, ⟨6, 800, "tr"⟩, ⟨7, 800, "tr"⟩, ⟨8, 800, "tr"⟩,
       ⟨9, 800, "tr"⟩, ⟨10, 800, "tr"⟩, ⟨11, 800, "tr"⟩, ⟨100, 800, "tr"⟩,
       ⟨101, 800, "tr"⟩, ⟨102, 800, "tr"⟩, ⟨103, 800, "tr"⟩, ⟨104, 800, "tr"⟩,
       ⟨105, 800, "tr"⟩, ⟨106, 800, "tr"⟩, ⟨107, 800, "tr"⟩, ⟨108, 800, "tr"⟩,
       ⟨123, 800, "tr"⟩]
    ⟨123, Status.CHILL, 0, (split_track "tr").1, (split_track "tr").2⟩ hmem
